import Mathlib

/-!
Verification development for the aesterisk control-plane server.

The Rust sources are shallowly embedded: the five concurrent index maps of
`server/src/state.rs` become association lists, the outbound `mpsc` channels
become an explicit list of emitted messages plus a `closed` flag per socket,
and the JWE envelope of `server/src/encryption.rs` becomes a symbolic token
record.  Machine integers that never overflow in the modelled paths are
embedded as `Nat`/`Int`; the `f64` statistics payloads are embedded as exact
`Int` values (JSON round-tripping is value-preserving for the finite values
the code produces, and NaN is not representable in JSON).  UUIDs are embedded
as their canonical string form.
-/

namespace Aesterisk

set_option autoImplicit false

/-! ## Association-list maps and insertion-ordered sets

`DashMap`/`HashMap` become association lists (first matching key wins) and
`HashSet` becomes a duplicate-free list in insertion order. -/

def lookupA {α β : Type} [DecidableEq α] : List (α × β) → α → Option β
  | [], _ => none
  | (k, v) :: rest, a => if k = a then some v else lookupA rest a

def insertA {α β : Type} [DecidableEq α] : List (α × β) → α → β → List (α × β)
  | [], a, b => [(a, b)]
  | (k, v) :: rest, a, b => if k = a then (a, b) :: rest else (k, v) :: insertA rest a b

def eraseA {α β : Type} [DecidableEq α] : List (α × β) → α → List (α × β)
  | [], _ => []
  | (k, v) :: rest, a => if k = a then eraseA rest a else (k, v) :: eraseA rest a

def insertS {α : Type} [DecidableEq α] (l : List α) (a : α) : List α :=
  if a ∈ l then l else l ++ [a]

def removeS {α : Type} [DecidableEq α] (l : List α) (a : α) : List α :=
  l.filter (fun x => x ≠ a)

/-! ## packet/src/events.rs -/

inductive EventType where
  | nodeStatus
  | serverStatus
  deriving DecidableEq, Repr

/-- `NodeStats` from packet/src/events.rs; the five `f64` fields are embedded
as exact `Int` values. -/
structure NodeStats where
  used_memory : Int
  total_memory : Int
  cpu : Int
  used_storage : Int
  total_storage : Int
  deriving DecidableEq, Repr

structure NodeStatusEvent where
  online : Bool
  stats : Option NodeStats
  deriving DecidableEq, Repr

inductive ServerStatusType where
  | healthy
  | starting
  | restarting
  | stopping
  | stopped
  | unhealthy
  deriving DecidableEq, Repr

structure Stats where
  used : Int
  total : Int
  deriving DecidableEq, Repr

structure ServerStatusEvent where
  server : Nat
  status : ServerStatusType
  memory : Option Stats
  cpu : Option Stats
  storage : Option Stats
  deriving DecidableEq, Repr

inductive EventData where
  | nodeStatus (e : NodeStatusEvent)
  | serverStatus (e : ServerStatusEvent)
  deriving DecidableEq, Repr

def EventData.eventType : EventData → EventType
  | .nodeStatus _ => .nodeStatus
  | .serverStatus _ => .serverStatus

/-- UUIDs are embedded as their canonical string form. -/
abbrev Uuid := String

/-- `ListenEvent` from packet/src/events.rs. -/
structure ListenEvent where
  event : EventType
  daemons : List Uuid
  deriving DecidableEq, Repr

/-! ## packet/src/server_daemon/sync.rs (payload structures) -/

structure SyncNetwork where
  id : Nat
  subnet : Nat
  deriving DecidableEq, Repr

structure Healthcheck where
  test : List String
  interval : Nat
  timeout : Nat
  retries : Nat
  deriving DecidableEq, Repr

structure Mount where
  container_path : String
  host_path : String
  deriving DecidableEq, Repr

inductive EnvType where
  | boolean
  | number
  | string
  deriving DecidableEq, Repr

structure EnvDef where
  key : String
  required : Bool
  env_type : EnvType
  default : Option String
  regex : Option String
  min : Option Int
  max : Option Int
  trim : Bool
  deriving DecidableEq, Repr

structure Env where
  key : String
  value : String
  deriving DecidableEq, Repr

structure ServerNetwork where
  network : Nat
  ip : Nat
  deriving DecidableEq, Repr

inductive Protocol where
  | tcp
  | udp
  deriving DecidableEq, Repr

structure Port where
  port : Nat
  protocol : Protocol
  mapped : Nat
  deriving DecidableEq, Repr

structure SyncTag where
  image : String
  docker_tag : String
  healthcheck : Healthcheck
  mounts : List Mount
  env_defs : List EnvDef
  deriving DecidableEq, Repr

structure SyncServer where
  id : Nat
  tag : SyncTag
  envs : List Env
  networks : List ServerNetwork
  ports : List Port
  deriving DecidableEq, Repr

structure SDSyncPacket where
  networks : List SyncNetwork
  servers : List SyncServer
  deriving DecidableEq, Repr

/-! ## server/src/state.rs: connection records and the shared state

The `tx` half of each unbounded channel is embedded as a `closed` flag on the
socket record; a message enqueued on it is recorded in the `Sends` output of
the operation, and `unbounded_send` fails exactly when the flag is set.
`close_channel` sets the flag. -/

structure DaemonHandshake where
  daemon_uuid : Uuid
  encrypter : Nat
  challenge : String
  deriving DecidableEq, Repr

structure DaemonSocket where
  closed : Bool
  handshake : Option DaemonHandshake
  deriving DecidableEq, Repr

structure WebHandshake where
  user_id : Nat
  encrypter : Nat
  challenge : String
  deriving DecidableEq, Repr

structure WebSocket where
  closed : Bool
  handshake : Option WebHandshake
  deriving DecidableEq, Repr

abbrev DaemonListenMap := List (Uuid × List (EventType × List Nat))
abbrev WebListenMap := List (Nat × List (EventType × List Uuid))

structure State where
  webChannelMap : List (Nat × WebSocket)
  daemonChannelMap : List (Nat × DaemonSocket)
  daemonListenMap : DaemonListenMap
  webListenMap : WebListenMap
  daemonIdMap : List (Uuid × Nat)
  deriving DecidableEq, Repr

def emptyState : State :=
  { webChannelMap := [], daemonChannelMap := [], daemonListenMap := [],
    webListenMap := [], daemonIdMap := [] }

/-- The packets the server-side state code constructs and enqueues on peer
channels (`SDSync` is included because the packet type exists in the crate;
no server code path constructs it). -/
inductive ServerMsg where
  | swEvent (daemon : Uuid) (event : EventData)
  | sdAuthResponse (success : Bool)
  | sdListen (events : List EventType)
  | sdHandshakeRequest (challenge : String)
  | sdSync (payload : SDSyncPacket)
  deriving DecidableEq, Repr

def ServerMsg.isSync : ServerMsg → Bool
  | .sdSync _ => true
  | _ => false

/-- An encrypted outbound frame: the packet together with the public key of
the peer encrypter it was encrypted with. -/
structure Enc where
  key : Nat
  msg : ServerMsg
  deriving DecidableEq, Repr

/-- Messages enqueued during an operation, tagged with the destination peer
address. -/
abbrev Sends := List (Nat × Enc)

/-- Generic lookup into the two nested listen maps: for a key and an event
type, the stored set (empty when either level is missing). -/
def nested {α β : Type} [DecidableEq α] (m : List (α × List (EventType × List β)))
    (k : α) (e : EventType) : List β :=
  ((lookupA m k).bind (fun lm => lookupA lm e)).getD []

/-- Keys of an inner listen map, in association order (models `HashMap::keys`). -/
def keysOf {β : Type} (l : List (EventType × List β)) : List EventType :=
  l.map Prod.fst

/-- State::send_event_from_server, inner loop over the subscriber set. -/
def fanClients (s : State) (uuid : Uuid) (event : EventData) :
    List Nat → Sends × Option String
  | [] => ([], none)
  | c :: cs =>
    match lookupA s.webChannelMap c with
    | none => ([], some "Disconnected client still in WebChannelMap")
    | some sock =>
      match sock.handshake with
      | none => ([], some "Client has not requested authentication")
      | some hs =>
        if sock.closed then ([], some "Could not send packet to client")
        else
          let r := fanClients s uuid event cs
          ((c, ⟨hs.encrypter, ServerMsg.swEvent uuid event⟩) :: r.1, r.2)

/-- State::send_event_from_server (state.rs lines 117-159). -/
def sendEventFromServer (s : State) (uuid : Uuid) (event : EventData) :
    Sends × Option String :=
  match lookupA s.daemonListenMap uuid with
  | none => ([], some "Daemon not found in DaemonListenMap")
  | some dm =>
    match lookupA dm event.eventType with
    | none => ([], none)
    | some clients => fanClients s uuid event clients

/-- State::send_event_from_daemon (state.rs lines 196-208). -/
def sendEventFromDaemon (s : State) (addr : Nat) (event : EventData) :
    Sends × Option String :=
  match lookupA s.daemonChannelMap addr with
  | none => ([], some "Daemon not found in DaemonChannelMap")
  | some sock =>
    match sock.handshake with
    | none => ([], some "Client has not requested authentication")
    | some hs => sendEventFromServer s hs.daemon_uuid event

/-- State::send_daemon_handshake_request (state.rs lines 256-294); the random
challenge is passed as a parameter. -/
def sendDaemonHandshakeRequest (s : State) (addr : Nat) (uuid : Uuid) (key : Nat)
    (challenge : String) : State × Sends × Option String :=
  match lookupA s.daemonChannelMap addr with
  | none => (s, [], some "Client not found in channel_map")
  | some sock =>
    let sock2 : DaemonSocket := { sock with handshake := some ⟨uuid, key, challenge⟩ }
    let s2 : State := { s with daemonChannelMap := insertA s.daemonChannelMap addr sock2 }
    if sock2.closed then (s2, [], some "Failed to send packet")
    else (s2, [(addr, ⟨key, ServerMsg.sdHandshakeRequest challenge⟩)], none)

/-- State::authenticate_daemon (state.rs lines 324-388). -/
def authenticateDaemon (s : State) (addr : Nat) (challenge : String) :
    State × Sends × Option String :=
  match lookupA s.daemonChannelMap addr with
  | none => (s, [], some "Client not found in channel_map")
  | some sock =>
    match sock.handshake with
    | none => (s, [], some "Client has not requested authentication")
    | some hs =>
      if challenge ≠ hs.challenge then
        ({ s with daemonChannelMap :=
             insertA s.daemonChannelMap addr { sock with closed := true } },
         [], some "Challenge does not match")
      else if sock.closed then (s, [], some "Failed to send packet")
      else
        let auth : Sends := [(addr, ⟨hs.encrypter, ServerMsg.sdAuthResponse true⟩)]
        let listens : Sends :=
          match lookupA s.daemonListenMap hs.daemon_uuid with
          | some lm => [(addr, ⟨hs.encrypter, ServerMsg.sdListen (keysOf lm)⟩)]
          | none => []
        ({ s with daemonIdMap := insertA s.daemonIdMap hs.daemon_uuid addr },
         auth ++ listens, none)

/-- State::add_daemon (state.rs lines 418-430). -/
def addDaemon (s : State) (addr : Nat) : State :=
  { s with daemonChannelMap := insertA s.daemonChannelMap addr ⟨false, none⟩ }

/-- State::add_web (state.rs lines 875-889). -/
def addWeb (s : State) (addr : Nat) : State :=
  { s with webChannelMap := insertA s.webChannelMap addr ⟨false, none⟩ }

/-- State::remove_daemon (state.rs lines 461-490): drop the channel and the
id-map entry, then broadcast the synthetic offline NodeStatus through the
normal fanout path. -/
def removeDaemon (s : State) (addr : Nat) : State × Sends × Option String :=
  match lookupA s.daemonChannelMap addr with
  | none => (s, [], some "Daemon not found in DaemonChannelMap")
  | some sock =>
    match sock.handshake with
    | none => (s, [], some "Daemon has not authenticated")
    | some hs =>
      let s2 : State :=
        { s with daemonChannelMap := eraseA s.daemonChannelMap addr,
                 daemonIdMap := eraseA s.daemonIdMap hs.daemon_uuid }
      let r := sendEventFromServer s2 hs.daemon_uuid
        (EventData.nodeStatus ⟨false, none⟩)
      (s2, r.1, r.2)

/-- State::disconnect_daemon (state.rs lines 515-525): close the channel. -/
def disconnectDaemon (s : State) (addr : Nat) : State × Option String :=
  match lookupA s.daemonChannelMap addr with
  | none => (s, some "Client not found in channel_map")
  | some sock =>
    ({ s with daemonChannelMap :=
        insertA s.daemonChannelMap addr { sock with closed := true } }, none)

/-- State::update_listens_for_daemon (state.rs lines 562-596). -/
def updateListensForDaemon (s : State) (addr : Nat) (uuid : Uuid) :
    Sends × Option String :=
  match lookupA s.daemonChannelMap addr with
  | none => ([], some "Daemon not found in DaemonChannelMap")
  | some sock =>
    match lookupA s.daemonListenMap uuid with
    | none => ([], some "Daemon not found in DaemonListenMap")
    | some lm =>
      match sock.handshake with
      | none => ([], some "Daemon has not requested authentication")
      | some hs =>
        if sock.closed then ([], some "Failed to send packet")
        else ([(addr, ⟨hs.encrypter, ServerMsg.sdListen (keysOf lm)⟩)], none)

/-- Sequence a send-producing action over a list, keeping the messages
emitted before the first failure (matches `?` propagation after sends). -/
def fanSeq {α : Type} (f : α → Sends × Option String) : List α → Sends × Option String
  | [] => ([], none)
  | x :: xs =>
    match f x with
    | (ms, some e) => (ms, some e)
    | (ms, none) =>
      let r := fanSeq f xs
      (ms ++ r.1, r.2)

/-- The daemon-side insertion of `send_listen` for one daemon of one event. -/
def dlInsert (m : DaemonListenMap) (d : Uuid) (e : EventType) (addr : Nat) :
    DaemonListenMap :=
  match lookupA m d with
  | some lm =>
    match lookupA lm e with
    | some set => insertA m d (insertA lm e (insertS set addr))
    | none => insertA m d (insertA lm e [addr])
  | none => insertA m d [(e, [addr])]

/-- `HashSet::from_iter` over a daemon list. -/
def setFrom (ds : List Uuid) : List Uuid :=
  ds.foldl insertS []

/-- The web-side insertion of `send_listen` for one event. -/
def wlInsert (m : WebListenMap) (addr : Nat) (e : EventType) (ds : List Uuid) :
    WebListenMap :=
  match lookupA m addr with
  | some lm =>
    match lookupA lm e with
    | some set => insertA m addr (insertA lm e (ds.foldl insertS set))
    | none => insertA m addr (insertA lm e (setFrom ds))
  | none => insertA m addr [(e, setFrom ds)]

structure ListenAcc where
  dl : DaemonListenMap
  wl : WebListenMap
  upd : List Uuid
  off : List Uuid
  deriving DecidableEq, Repr

/-- Body of the inner `for daemon in event.daemons` loop of send_listen. -/
def listenDaemonStep (addr : Nat) (e : EventType) (idMap : List (Uuid × Nat))
    (acc : ListenAcc) (d : Uuid) : ListenAcc :=
  { acc with
    upd := insertS acc.upd d,
    dl := dlInsert acc.dl d e addr,
    off := if e = EventType.nodeStatus ∧ lookupA idMap d = none
           then insertS acc.off d else acc.off }

/-- Body of the outer `for event in events` loop of send_listen. -/
def listenEventStep (addr : Nat) (idMap : List (Uuid × Nat))
    (acc : ListenAcc) (ev : ListenEvent) : ListenAcc :=
  let acc1 := ev.daemons.foldl (listenDaemonStep addr ev.event idMap) acc
  { acc1 with wl := wlInsert acc1.wl addr ev.event ev.daemons }

/-- State::send_listen (state.rs lines 771-853): mutate both listen maps,
then notify offline daemons with a synthetic NodeStatus and push updated
SDListen packets to the online updated daemons. -/
def sendListen (s : State) (addr : Nat) (events : List ListenEvent) :
    State × Sends × Option String :=
  let acc := events.foldl (listenEventStep addr s.daemonIdMap)
    ⟨s.daemonListenMap, s.webListenMap, [], []⟩
  let s2 : State := { s with daemonListenMap := acc.dl, webListenMap := acc.wl }
  let offline := fanSeq (fun d => sendEventFromServer s2 d
    (EventData.nodeStatus ⟨false, none⟩)) acc.off
  match offline with
  | (ms, some e) => (s2, ms, some e)
  | (ms, none) =>
    let upd := fanSeq (fun d =>
      match lookupA s2.daemonIdMap d with
      | some daddr => updateListensForDaemon s2 daddr d
      | none => ([], none)) acc.upd
    (s2, ms ++ upd.1, upd.2)

/-- One removal step of remove_web: delete `addr` from
`DaemonListen[d][e]`, pruning the event key when its set becomes empty (the
daemon key itself is never pruned). -/
def removeFromDl (dl : DaemonListenMap) (d : Uuid) (e : EventType) (addr : Nat) :
    Except String DaemonListenMap :=
  match lookupA dl d with
  | none => .error "daemon not found in DaemonListenMap"
  | some lm =>
    match lookupA lm e with
    | none => .error "event not found in DaemonListenMap"
    | some set =>
      let set2 := removeS set addr
      if set2 = [] then .ok (insertA dl d (eraseA lm e))
      else .ok (insertA dl d (insertA lm e set2))

/-- Inner `for daemon in daemons` loop of remove_web, with early error exit
on the partially mutated map. -/
def rwDaemons (addr : Nat) (e : EventType) :
    List Uuid → DaemonListenMap → List Uuid →
    DaemonListenMap × List Uuid × Option String
  | [], dl, upd => (dl, upd, none)
  | d :: ds, dl, upd =>
    let upd2 := insertS upd d
    match removeFromDl dl d e addr with
    | .error msg => (dl, upd2, some msg)
    | .ok dl2 => rwDaemons addr e ds dl2 upd2

/-- Outer `for (event, daemons)` loop of remove_web. -/
def rwEvents (addr : Nat) :
    List (EventType × List Uuid) → DaemonListenMap → List Uuid →
    DaemonListenMap × List Uuid × Option String
  | [], dl, upd => (dl, upd, none)
  | (e, ds) :: rest, dl, upd =>
    match rwDaemons addr e ds dl upd with
    | (dl2, upd2, some msg) => (dl2, upd2, some msg)
    | (dl2, upd2, none) => rwEvents addr rest dl2 upd2

/-- State::remove_web (state.rs lines 924-985): drop the channel entry,
strip `addr` out of `DaemonListen` guided by its `WebListen` entry, then
push updated SDListen packets to the affected online daemons.  The
`WebListen` entry itself is left in the map. -/
def removeWeb (s : State) (addr : Nat) : State × Sends × Option String :=
  let wcm := eraseA s.webChannelMap addr
  match lookupA s.webListenMap addr with
  | none => ({ s with webChannelMap := wcm }, [], none)
  | some lm =>
    match rwEvents addr lm s.daemonListenMap [] with
    | (dl2, _, some msg) =>
      ({ s with webChannelMap := wcm, daemonListenMap := dl2 }, [], some msg)
    | (dl2, upd, none) =>
      let s2 : State := { s with webChannelMap := wcm, daemonListenMap := dl2 }
      let r := fanSeq (fun d =>
        match lookupA s2.daemonIdMap d with
        | some daddr => updateListensForDaemon s2 daddr d
        | none => ([], none)) upd
      (s2, r.1, r.2)

/-! ## packet/src: the wire schema

`serde_json::Value` becomes the `Json` inductive; structs serialize to
objects in declared field order, `Vec` to arrays, `Option` to the value or
`null`, unit enums to their (possibly `rename_all`-lowercased) name strings,
`serde_repr` enums to their integer codes, and externally tagged enums to a
single-field object. -/

inductive Json where
  | null
  | bool (b : Bool)
  | num (n : Int)
  | str (s : String)
  | arr (elts : List Json)
  | obj (fields : List (String × Json))

def Json.getField : Json → String → Option Json
  | .obj fields, key => lookupA fields key
  | _, _ => none

def Json.asNat : Json → Option Nat
  | .num n => if n < 0 then none else some n.toNat
  | _ => none

def Json.asInt : Json → Option Int
  | .num n => some n
  | _ => none

def Json.asStr : Json → Option String
  | .str s => some s
  | _ => none

def Json.asBool : Json → Option Bool
  | .bool b => some b
  | _ => none

def mapMOpt {α β : Type} (f : α → Option β) : List α → Option (List β)
  | [] => some []
  | x :: xs =>
    match f x with
    | none => none
    | some y => (mapMOpt f xs).map (fun ys => y :: ys)

def decodeList {α : Type} (dec : Json → Option α) : Json → Option (List α)
  | .arr xs => mapMOpt dec xs
  | _ => none

def encodeOpt {α : Type} (enc : α → Json) : Option α → Json
  | none => .null
  | some a => enc a

def decodeOpt {α : Type} (dec : Json → Option α) : Json → Option (Option α)
  | .null => some none
  | j => (dec j).map some

def encNat (n : Nat) : Json := .num (Int.ofNat n)

/-- Modelled from the spec: the current `packet::ID` enum.  The `lib.rs` in
the tree is an older revision that lacks the web and sync ids used by the
rest of the source; the constructor set follows spec section 4.2 plus the
ids referenced by the packet submodules.  Integer codes for the ids missing
from the tree are modelled (only injectivity matters for the claims). -/
inductive ID where
  | ASAuth | DSAuth | SAHandshakeRequest | SDHandshakeRequest
  | ASHandshakeResponse | DSHandshakeResponse | SAAuthResponse | SDAuthResponse
  | ASListen | SDListen | DSEvent | SAEvent
  | WSAuth | WSHandshakeResponse | WSListen | WSSync
  | SWHandshakeRequest | SWAuthResponse | SWEvent | SDSync | SDInitData
  deriving DecidableEq, Repr

def idCode : ID → Nat
  | .ASAuth => 0 | .DSAuth => 1 | .SAHandshakeRequest => 2 | .SDHandshakeRequest => 3
  | .ASHandshakeResponse => 4 | .DSHandshakeResponse => 5 | .SAAuthResponse => 6
  | .SDAuthResponse => 7 | .ASListen => 8 | .SDListen => 9 | .DSEvent => 10
  | .SAEvent => 11 | .WSAuth => 12 | .WSHandshakeResponse => 13 | .WSListen => 14
  | .WSSync => 15 | .SWHandshakeRequest => 16 | .SWAuthResponse => 17
  | .SWEvent => 18 | .SDSync => 19 | .SDInitData => 20

def idFromCode : Nat → Option ID
  | 0 => some .ASAuth | 1 => some .DSAuth | 2 => some .SAHandshakeRequest
  | 3 => some .SDHandshakeRequest | 4 => some .ASHandshakeResponse
  | 5 => some .DSHandshakeResponse | 6 => some .SAAuthResponse
  | 7 => some .SDAuthResponse | 8 => some .ASListen | 9 => some .SDListen
  | 10 => some .DSEvent | 11 => some .SAEvent | 12 => some .WSAuth
  | 13 => some .WSHandshakeResponse | 14 => some .WSListen | 15 => some .WSSync
  | 16 => some .SWHandshakeRequest | 17 => some .SWAuthResponse
  | 18 => some .SWEvent | 19 => some .SDSync | 20 => some .SDInitData
  | _ => none

inductive Version where
  | v0_1_0
  deriving DecidableEq, Repr

def versionCode : Version → Nat
  | .v0_1_0 => 0

def versionFromCode : Nat → Option Version
  | 0 => some .v0_1_0
  | _ => none

/-- `Packet` from packet/src/lib.rs. -/
structure Packet where
  version : Version
  id : ID
  data : Json

def Packet.toJson (p : Packet) : Json :=
  .obj [("version", encNat (versionCode p.version)),
        ("id", encNat (idCode p.id)),
        ("data", p.data)]

/-- `Packet::from_value`. -/
def Packet.fromJson (j : Json) : Option Packet :=
  match (j.getField "version").bind Json.asNat with
  | none => none
  | some vc =>
    match versionFromCode vc with
    | none => none
    | some v =>
      match (j.getField "id").bind Json.asNat with
      | none => none
      | some ic =>
        match idFromCode ic with
        | none => none
        | some i =>
          match j.getField "data" with
          | none => none
          | some d => some ⟨v, i, d⟩

/-! ### Serialization of the event payloads (packet/src/events.rs) -/

def encEventType : EventType → Json
  | .nodeStatus => .str "NodeStatus"
  | .serverStatus => .str "ServerStatus"

def decEventType : Json → Option EventType
  | .str "NodeStatus" => some .nodeStatus
  | .str "ServerStatus" => some .serverStatus
  | _ => none

def encNodeStats (s : NodeStats) : Json :=
  .obj [("used_memory", .num s.used_memory), ("total_memory", .num s.total_memory),
        ("cpu", .num s.cpu), ("used_storage", .num s.used_storage),
        ("total_storage", .num s.total_storage)]

def decNodeStats (j : Json) : Option NodeStats :=
  match (j.getField "used_memory").bind Json.asInt with
  | none => none
  | some um =>
    match (j.getField "total_memory").bind Json.asInt with
    | none => none
    | some tm =>
      match (j.getField "cpu").bind Json.asInt with
      | none => none
      | some c =>
        match (j.getField "used_storage").bind Json.asInt with
        | none => none
        | some us =>
          match (j.getField "total_storage").bind Json.asInt with
          | none => none
          | some ts => some ⟨um, tm, c, us, ts⟩

def encNodeStatusEvent (e : NodeStatusEvent) : Json :=
  .obj [("online", .bool e.online), ("stats", encodeOpt encNodeStats e.stats)]

def decNodeStatusEvent (j : Json) : Option NodeStatusEvent :=
  match (j.getField "online").bind Json.asBool with
  | none => none
  | some o =>
    match (j.getField "stats").bind (decodeOpt decNodeStats) with
    | none => none
    | some st => some ⟨o, st⟩

def encServerStatusType : ServerStatusType → Json
  | .healthy => .str "healthy"
  | .starting => .str "starting"
  | .restarting => .str "restarting"
  | .stopping => .str "stopping"
  | .stopped => .str "stopped"
  | .unhealthy => .str "unhealthy"

def decServerStatusType : Json → Option ServerStatusType
  | .str "healthy" => some .healthy
  | .str "starting" => some .starting
  | .str "restarting" => some .restarting
  | .str "stopping" => some .stopping
  | .str "stopped" => some .stopped
  | .str "unhealthy" => some .unhealthy
  | _ => none

def encStats (s : Stats) : Json :=
  .obj [("used", .num s.used), ("total", .num s.total)]

def decStats (j : Json) : Option Stats :=
  match (j.getField "used").bind Json.asInt with
  | none => none
  | some u =>
    match (j.getField "total").bind Json.asInt with
    | none => none
    | some t => some ⟨u, t⟩

def encServerStatusEvent (e : ServerStatusEvent) : Json :=
  .obj [("server", encNat e.server), ("status", encServerStatusType e.status),
        ("memory", encodeOpt encStats e.memory), ("cpu", encodeOpt encStats e.cpu),
        ("storage", encodeOpt encStats e.storage)]

def decServerStatusEvent (j : Json) : Option ServerStatusEvent :=
  match (j.getField "server").bind Json.asNat with
  | none => none
  | some sv =>
    match (j.getField "status").bind decServerStatusType with
    | none => none
    | some st =>
      match (j.getField "memory").bind (decodeOpt decStats) with
      | none => none
      | some mem =>
        match (j.getField "cpu").bind (decodeOpt decStats) with
        | none => none
        | some cp =>
          match (j.getField "storage").bind (decodeOpt decStats) with
          | none => none
          | some sg => some ⟨sv, st, mem, cp, sg⟩

def encEventData : EventData → Json
  | .nodeStatus e => .obj [("NodeStatus", encNodeStatusEvent e)]
  | .serverStatus e => .obj [("ServerStatus", encServerStatusEvent e)]

def decEventData : Json → Option EventData
  | .obj [("NodeStatus", v)] => (decNodeStatusEvent v).map .nodeStatus
  | .obj [("ServerStatus", v)] => (decServerStatusEvent v).map .serverStatus
  | _ => none

def encUuid (u : Uuid) : Json := .str u

def decUuid : Json → Option Uuid
  | .str s => some s
  | _ => none

def encListenEvent (e : ListenEvent) : Json :=
  .obj [("event", encEventType e.event), ("daemons", .arr (e.daemons.map encUuid))]

def decListenEvent (j : Json) : Option ListenEvent :=
  match (j.getField "event").bind decEventType with
  | none => none
  | some ev =>
    match (j.getField "daemons").bind (decodeList decUuid) with
    | none => none
    | some ds => some ⟨ev, ds⟩

/-! ### Serialization of the sync payloads, one-letter keys per the
`serde(rename)` attributes in packet/src/server_daemon/sync.rs -/

def encSyncNetwork (n : SyncNetwork) : Json :=
  .obj [("i", encNat n.id), ("s", encNat n.subnet)]

def decSyncNetwork (j : Json) : Option SyncNetwork :=
  match (j.getField "i").bind Json.asNat with
  | none => none
  | some i =>
    match (j.getField "s").bind Json.asNat with
    | none => none
    | some s => some ⟨i, s⟩

def encHealthcheck (h : Healthcheck) : Json :=
  .obj [("t", .arr (h.test.map Json.str)), ("i", encNat h.interval),
        ("m", encNat h.timeout), ("r", encNat h.retries)]

def decHealthcheck (j : Json) : Option Healthcheck :=
  match (j.getField "t").bind (decodeList Json.asStr) with
  | none => none
  | some t =>
    match (j.getField "i").bind Json.asNat with
    | none => none
    | some i =>
      match (j.getField "m").bind Json.asNat with
      | none => none
      | some m =>
        match (j.getField "r").bind Json.asNat with
        | none => none
        | some r => some ⟨t, i, m, r⟩

def encMount (m : Mount) : Json :=
  .obj [("c", .str m.container_path), ("h", .str m.host_path)]

def decMount (j : Json) : Option Mount :=
  match (j.getField "c").bind Json.asStr with
  | none => none
  | some c =>
    match (j.getField "h").bind Json.asStr with
    | none => none
    | some h => some ⟨c, h⟩

def encEnvType : EnvType → Json
  | .boolean => encNat 0
  | .number => encNat 1
  | .string => encNat 2

def decEnvType : Json → Option EnvType
  | .num 0 => some .boolean
  | .num 1 => some .number
  | .num 2 => some .string
  | _ => none

def encEnvDef (d : EnvDef) : Json :=
  .obj [("k", .str d.key), ("r", .bool d.required), ("t", encEnvType d.env_type),
        ("d", encodeOpt Json.str d.default), ("x", encodeOpt Json.str d.regex),
        ("m", encodeOpt Json.num d.min), ("a", encodeOpt Json.num d.max),
        ("i", .bool d.trim)]

def decEnvDef (j : Json) : Option EnvDef :=
  match (j.getField "k").bind Json.asStr with
  | none => none
  | some k =>
    match (j.getField "r").bind Json.asBool with
    | none => none
    | some r =>
      match (j.getField "t").bind decEnvType with
      | none => none
      | some t =>
        match (j.getField "d").bind (decodeOpt Json.asStr) with
        | none => none
        | some d =>
          match (j.getField "x").bind (decodeOpt Json.asStr) with
          | none => none
          | some x =>
            match (j.getField "m").bind (decodeOpt Json.asInt) with
            | none => none
            | some mn =>
              match (j.getField "a").bind (decodeOpt Json.asInt) with
              | none => none
              | some mx =>
                match (j.getField "i").bind Json.asBool with
                | none => none
                | some tr => some ⟨k, r, t, d, x, mn, mx, tr⟩

def encEnv (e : Env) : Json :=
  .obj [("k", .str e.key), ("v", .str e.value)]

def decEnv (j : Json) : Option Env :=
  match (j.getField "k").bind Json.asStr with
  | none => none
  | some k =>
    match (j.getField "v").bind Json.asStr with
    | none => none
    | some v => some ⟨k, v⟩

def encServerNetwork (n : ServerNetwork) : Json :=
  .obj [("n", encNat n.network), ("i", encNat n.ip)]

def decServerNetwork (j : Json) : Option ServerNetwork :=
  match (j.getField "n").bind Json.asNat with
  | none => none
  | some n =>
    match (j.getField "i").bind Json.asNat with
    | none => none
    | some i => some ⟨n, i⟩

def encProtocol : Protocol → Json
  | .tcp => encNat 0
  | .udp => encNat 1

def decProtocol : Json → Option Protocol
  | .num 0 => some .tcp
  | .num 1 => some .udp
  | _ => none

def encPort (p : Port) : Json :=
  .obj [("p", encNat p.port), ("r", encProtocol p.protocol), ("m", encNat p.mapped)]

def decPort (j : Json) : Option Port :=
  match (j.getField "p").bind Json.asNat with
  | none => none
  | some p =>
    match (j.getField "r").bind decProtocol with
    | none => none
    | some r =>
      match (j.getField "m").bind Json.asNat with
      | none => none
      | some m => some ⟨p, r, m⟩

def encSyncTag (t : SyncTag) : Json :=
  .obj [("i", .str t.image), ("d", .str t.docker_tag),
        ("h", encHealthcheck t.healthcheck), ("m", .arr (t.mounts.map encMount)),
        ("e", .arr (t.env_defs.map encEnvDef))]

def decSyncTag (j : Json) : Option SyncTag :=
  match (j.getField "i").bind Json.asStr with
  | none => none
  | some i =>
    match (j.getField "d").bind Json.asStr with
    | none => none
    | some d =>
      match (j.getField "h").bind decHealthcheck with
      | none => none
      | some h =>
        match (j.getField "m").bind (decodeList decMount) with
        | none => none
        | some m =>
          match (j.getField "e").bind (decodeList decEnvDef) with
          | none => none
          | some e => some ⟨i, d, h, m, e⟩

def encSyncServer (s : SyncServer) : Json :=
  .obj [("i", encNat s.id), ("t", encSyncTag s.tag), ("e", .arr (s.envs.map encEnv)),
        ("n", .arr (s.networks.map encServerNetwork)), ("p", .arr (s.ports.map encPort))]

def decSyncServer (j : Json) : Option SyncServer :=
  match (j.getField "i").bind Json.asNat with
  | none => none
  | some i =>
    match (j.getField "t").bind decSyncTag with
    | none => none
    | some t =>
      match (j.getField "e").bind (decodeList decEnv) with
      | none => none
      | some e =>
        match (j.getField "n").bind (decodeList decServerNetwork) with
        | none => none
        | some n =>
          match (j.getField "p").bind (decodeList decPort) with
          | none => none
          | some p => some ⟨i, t, e, n, p⟩

def encSDSync (p : SDSyncPacket) : Json :=
  .obj [("n", .arr (p.networks.map encSyncNetwork)),
        ("s", .arr (p.servers.map encSyncServer))]

def decSDSync (j : Json) : Option SDSyncPacket :=
  match (j.getField "n").bind (decodeList decSyncNetwork) with
  | none => none
  | some n =>
    match (j.getField "s").bind (decodeList decSyncServer) with
    | none => none
    | some s => some ⟨n, s⟩

/-! ### Per-variant wire packets (to_packet and parse of each submodule) -/

structure SWEventPacket where
  event : EventData
  daemon : Uuid

def SWEventPacket.toPacket (p : SWEventPacket) : Packet :=
  ⟨.v0_1_0, .SWEvent, .obj [("event", encEventData p.event), ("daemon", encUuid p.daemon)]⟩

def SWEventPacket.parse (p : Packet) : Option SWEventPacket :=
  if p.id ≠ ID.SWEvent then none
  else
    match (p.data.getField "event").bind decEventData with
    | none => none
    | some e =>
      match (p.data.getField "daemon").bind decUuid with
      | none => none
      | some d => some ⟨e, d⟩

structure DSEventPacket where
  data : EventData

def DSEventPacket.toPacket (p : DSEventPacket) : Packet :=
  ⟨.v0_1_0, .DSEvent, .obj [("data", encEventData p.data)]⟩

def DSEventPacket.parse (p : Packet) : Option DSEventPacket :=
  if p.id ≠ ID.DSEvent then none
  else ((p.data.getField "data").bind decEventData).map DSEventPacket.mk

structure SDAuthResponsePacket where
  success : Bool

def SDAuthResponsePacket.toPacket (p : SDAuthResponsePacket) : Packet :=
  ⟨.v0_1_0, .SDAuthResponse, .obj [("success", .bool p.success)]⟩

def SDAuthResponsePacket.parse (p : Packet) : Option SDAuthResponsePacket :=
  if p.id ≠ ID.SDAuthResponse then none
  else ((p.data.getField "success").bind Json.asBool).map SDAuthResponsePacket.mk

structure SDHandshakeRequestPacket where
  challenge : String

def SDHandshakeRequestPacket.toPacket (p : SDHandshakeRequestPacket) : Packet :=
  ⟨.v0_1_0, .SDHandshakeRequest, .obj [("challenge", .str p.challenge)]⟩

def SDHandshakeRequestPacket.parse (p : Packet) : Option SDHandshakeRequestPacket :=
  if p.id ≠ ID.SDHandshakeRequest then none
  else ((p.data.getField "challenge").bind Json.asStr).map SDHandshakeRequestPacket.mk

/-- `Network` from packet/src/server_daemon/init_data.rs (unrenamed fields). -/
structure InitNetwork where
  id : Nat
  name : String
  subnet : Nat

def encInitNetwork (n : InitNetwork) : Json :=
  .obj [("id", encNat n.id), ("name", .str n.name), ("subnet", encNat n.subnet)]

def decInitNetwork (j : Json) : Option InitNetwork :=
  match (j.getField "id").bind Json.asNat with
  | none => none
  | some i =>
    match (j.getField "name").bind Json.asStr with
    | none => none
    | some nm =>
      match (j.getField "subnet").bind Json.asNat with
      | none => none
      | some s => some ⟨i, nm, s⟩

structure SDInitDataPacket where
  networks : List InitNetwork

def SDInitDataPacket.toPacket (p : SDInitDataPacket) : Packet :=
  ⟨.v0_1_0, .SDInitData, .obj [("networks", .arr (p.networks.map encInitNetwork))]⟩

def SDInitDataPacket.parse (p : Packet) : Option SDInitDataPacket :=
  if p.id ≠ ID.SDInitData then none
  else ((p.data.getField "networks").bind (decodeList decInitNetwork)).map SDInitDataPacket.mk

structure SDListenPacket where
  events : List EventType

def SDListenPacket.toPacket (p : SDListenPacket) : Packet :=
  ⟨.v0_1_0, .SDListen, .obj [("events", .arr (p.events.map encEventType))]⟩

def SDListenPacket.parse (p : Packet) : Option SDListenPacket :=
  if p.id ≠ ID.SDListen then none
  else ((p.data.getField "events").bind (decodeList decEventType)).map SDListenPacket.mk

def SDSyncPacket.toPacket (p : SDSyncPacket) : Packet :=
  ⟨.v0_1_0, .SDSync, encSDSync p⟩

def SDSyncPacket.parse (p : Packet) : Option SDSyncPacket :=
  if p.id ≠ ID.SDSync then none
  else decSDSync p.data

structure SWHandshakeRequestPacket where
  challenge : String

def SWHandshakeRequestPacket.toPacket (p : SWHandshakeRequestPacket) : Packet :=
  ⟨.v0_1_0, .SWHandshakeRequest, .obj [("challenge", .str p.challenge)]⟩

def SWHandshakeRequestPacket.parse (p : Packet) : Option SWHandshakeRequestPacket :=
  if p.id ≠ ID.SWHandshakeRequest then none
  else ((p.data.getField "challenge").bind Json.asStr).map SWHandshakeRequestPacket.mk

structure WSAuthPacket where
  user_id : Nat

/-- The `Packet` value built inside `WSAuthPacket::to_string`. -/
def WSAuthPacket.toStringPacket (p : WSAuthPacket) : Packet :=
  ⟨.v0_1_0, .WSAuth, .obj [("user_id", encNat p.user_id)]⟩

def WSAuthPacket.parse (p : Packet) : Option WSAuthPacket :=
  if p.id ≠ ID.WSAuth then none
  else ((p.data.getField "user_id").bind Json.asNat).map WSAuthPacket.mk

structure WSHandshakeResponsePacket where
  challenge : String

/-- The `Packet` value built inside `WSHandshakeResponsePacket::to_string`:
the source constructs it with `ID::WSAuth`. -/
def WSHandshakeResponsePacket.toStringPacket (p : WSHandshakeResponsePacket) : Packet :=
  ⟨.v0_1_0, .WSAuth, .obj [("challenge", .str p.challenge)]⟩

def WSHandshakeResponsePacket.parse (p : Packet) : Option WSHandshakeResponsePacket :=
  if p.id ≠ ID.WSHandshakeResponse then none
  else ((p.data.getField "challenge").bind Json.asStr).map WSHandshakeResponsePacket.mk

structure WSListenPacket where
  events : List ListenEvent

/-- The `Packet` value built inside `WSListenPacket::to_string`. -/
def WSListenPacket.toStringPacket (p : WSListenPacket) : Packet :=
  ⟨.v0_1_0, .WSListen, .obj [("events", .arr (p.events.map encListenEvent))]⟩

def WSListenPacket.parse (p : Packet) : Option WSListenPacket :=
  if p.id ≠ ID.WSListen then none
  else ((p.data.getField "events").bind (decodeList decListenEvent)).map WSListenPacket.mk

structure WSSyncPacket where
  daemon : Uuid

def WSSyncPacket.toPacket (p : WSSyncPacket) : Packet :=
  ⟨.v0_1_0, .WSSync, .obj [("daemon", encUuid p.daemon)]⟩

def WSSyncPacket.parse (p : Packet) : Option WSSyncPacket :=
  if p.id ≠ ID.WSSync then none
  else ((p.data.getField "daemon").bind decUuid).map WSSyncPacket.mk

/-- Every packet variant present under packet/src for the current protocol,
with the wire `Packet` each one sends (its `to_packet`, or for the three
web-sender packets the `Packet` built inline by `to_string`). -/
inductive AnyPacket where
  | swEvent (p : SWEventPacket)
  | dsEvent (p : DSEventPacket)
  | sdAuthResponse (p : SDAuthResponsePacket)
  | sdHandshakeRequest (p : SDHandshakeRequestPacket)
  | sdInitData (p : SDInitDataPacket)
  | sdListen (p : SDListenPacket)
  | sdSync (p : SDSyncPacket)
  | swHandshakeRequest (p : SWHandshakeRequestPacket)
  | wsAuth (p : WSAuthPacket)
  | wsHandshakeResponse (p : WSHandshakeResponsePacket)
  | wsListen (p : WSListenPacket)
  | wsSync (p : WSSyncPacket)

def AnyPacket.wire : AnyPacket → Packet
  | .swEvent p => p.toPacket
  | .dsEvent p => p.toPacket
  | .sdAuthResponse p => p.toPacket
  | .sdHandshakeRequest p => p.toPacket
  | .sdInitData p => p.toPacket
  | .sdListen p => p.toPacket
  | .sdSync p => p.toPacket
  | .swHandshakeRequest p => p.toPacket
  | .wsAuth p => p.toStringPacket
  | .wsHandshakeResponse p => p.toStringPacket
  | .wsListen p => p.toStringPacket
  | .wsSync p => p.toPacket

/-- Send a variant to the wire and parse it back with the parser of the same
variant family. -/
def AnyPacket.reparse : AnyPacket → Option AnyPacket
  | .swEvent p => (SWEventPacket.parse (AnyPacket.wire (.swEvent p))).map .swEvent
  | .dsEvent p => (DSEventPacket.parse (AnyPacket.wire (.dsEvent p))).map .dsEvent
  | .sdAuthResponse p =>
      (SDAuthResponsePacket.parse (AnyPacket.wire (.sdAuthResponse p))).map .sdAuthResponse
  | .sdHandshakeRequest p =>
      (SDHandshakeRequestPacket.parse (AnyPacket.wire (.sdHandshakeRequest p))).map .sdHandshakeRequest
  | .sdInitData p => (SDInitDataPacket.parse (AnyPacket.wire (.sdInitData p))).map .sdInitData
  | .sdListen p => (SDListenPacket.parse (AnyPacket.wire (.sdListen p))).map .sdListen
  | .sdSync p => (SDSyncPacket.parse (AnyPacket.wire (.sdSync p))).map .sdSync
  | .swHandshakeRequest p =>
      (SWHandshakeRequestPacket.parse (AnyPacket.wire (.swHandshakeRequest p))).map .swHandshakeRequest
  | .wsAuth p => (WSAuthPacket.parse (AnyPacket.wire (.wsAuth p))).map .wsAuth
  | .wsHandshakeResponse p =>
      (WSHandshakeResponsePacket.parse (AnyPacket.wire (.wsHandshakeResponse p))).map .wsHandshakeResponse
  | .wsListen p => (WSListenPacket.parse (AnyPacket.wire (.wsListen p))).map .wsListen
  | .wsSync p => (WSSyncPacket.parse (AnyPacket.wire (.wsSync p))).map .wsSync

/-! ## server/src/encryption.rs and server/src/web.rs: the crypto envelope

A JWE token is embedded symbolically: decryption with the private key
succeeds exactly when the token was encrypted to the matching public key
(`encKey`); tokens that are malformed or encrypted to another key fail to
decode.  A Rust panic (`.expect`) is a distinct outcome from an error
return. -/

structure Jwe where
  encKey : Nat
  iss : String
  iat : Int
  exp : Int
  pClaim : Option Json

inductive DOutcome where
  | ok (p : Packet)
  | err (e : String)
  | crash (e : String)

/-- The `JwtPayloadValidator` checks of both decrypt paths: issuer match,
`min_issued_time = now - 60`, `max_issued_time = now`, and expiry not before
the base time. -/
def jwtValid (tok : Jwe) (issuer : String) (now : Int) : Bool :=
  decide (tok.iss = issuer) && decide (now - 60 ≤ tok.iat) &&
  decide (tok.iat ≤ now) && decide (now ≤ tok.exp)

/-- server/src/encryption.rs encrypt_packet (lines 59-72). -/
def encryptPacket (p : Packet) (encrypterKey : Nat) (now : Int) : Jwe :=
  { encKey := encrypterKey, iss := "aesterisk/server", iat := now,
    exp := now + 60, pClaim := some p.toJson }

/-- server/src/encryption.rs decrypt_packet (lines 106-130).  The second
component records whether the `on_err` callback ran.  Decode failure and a
missing `p` claim go through `.expect`, i.e. they crash instead of
returning. -/
def decryptPacketEnc (tok : Jwe) (privKey : Nat) (issuer : String) (now : Int) :
    DOutcome × Bool :=
  if tok.encKey ≠ privKey then (.crash "should decrypt", false)
  else if jwtValid tok issuer now = false then (.err "Invalid token", true)
  else
    match tok.pClaim with
    | none => (.crash "should have .p", false)
    | some j =>
      match Packet.fromJson j with
      | none => (.err "Could not parse packet", false)
      | some p => (.ok p, false)

/-- server/src/web.rs decrypt_packet (lines 237-252): every failure is an
error return (issuer fixed to the web role), and nothing closes the peer. -/
def decryptPacketWeb (tok : Jwe) (privKey : Nat) (now : Int) : DOutcome :=
  if tok.encKey ≠ privKey then .err "should decrypt"
  else if jwtValid tok "aesterisk/web" now = false then .err "invalid token"
  else
    match tok.pClaim with
    | none => .err "should have .p"
    | some j =>
      match Packet.fromJson j with
      | none => .err "Could not parse packet"
      | some p => .ok p

/-- The decrypt stage of `Server::handle_packet` (server/src/server.rs lines
286-294) on the daemon listener: `on_err` is `DaemonServer::on_decrypt_error`,
which closes the peer channel via `State::disconnect_daemon`; an error from
the callback is propagated instead of the validation error. -/
def handlePacketDaemon (s : State) (tok : Jwe) (privKey : Nat) (now : Int)
    (addr : Nat) : State × DOutcome :=
  if tok.encKey ≠ privKey then (s, .crash "should decrypt")
  else if jwtValid tok "aesterisk/daemon" now = false then
    match lookupA s.daemonChannelMap addr with
    | none => (s, .err "Client not found in channel_map")
    | some sock =>
      ({ s with daemonChannelMap :=
          insertA s.daemonChannelMap addr { sock with closed := true } },
       .err "Invalid token")
  else
    match tok.pClaim with
    | none => (s, .crash "should have .p")
    | some j =>
      match Packet.fromJson j with
      | none => (s, .err "Could not parse packet")
      | some p => (s, .ok p)

/-! ## daemon/src/docker/server.rs: mount path validation (lines 88-143)

`camino::Utf8Component` becomes `UComp`; the per-server data root
`/tmp/aesterisk/data/<id>/` becomes its component list. -/

inductive UComp where
  | root
  | cur
  | parent
  | normal (s : String)
  deriving DecidableEq, Repr

/-- One iteration of the normalization loop: a parent-dir component pops the
accumulated components only when the last one is a normal component. -/
def normStep (stack : List UComp) (c : UComp) : List UComp :=
  match c with
  | .parent =>
    match stack.getLast? with
    | some (.normal _) => stack.dropLast
    | _ => stack ++ [c]
  | _ => stack ++ [c]

def normalizeComponents (cs : List UComp) : List UComp :=
  cs.foldl normStep []

def dataRootComps (serverId : Nat) : List UComp :=
  [.root, .normal "tmp", .normal "aesterisk", .normal "data", .normal (toString serverId)]

/-- `strip_prefix("/").unwrap_or(unsafe_path)`. -/
def stripRoot : List UComp → List UComp
  | .root :: rest => rest
  | cs => cs

def isPrefixList {α : Type} [DecidableEq α] : List α → List α → Bool
  | [], _ => true
  | _ :: _, [] => false
  | a :: as, b :: bs => if a = b then isPrefixList as bs else false

/-- The mount filter of `create_server`: join the host path onto the data
root, normalize, and keep the normalized path as the bind source only when
it still starts with the data root. -/
def validateMount (serverId : Nat) (hostComps : List UComp) : Option (List UComp) :=
  let safe := stripRoot hostComps
  let joined := dataRootComps serverId ++ safe
  let path := normalizeComponents joined
  if isPrefixList (dataRootComps serverId) path then some path else none

/-! ## Operation sequences over the server state (spec section 8) -/

inductive Op where
  | webConnect (addr : Nat)
  | webListen (addr : Nat) (events : List ListenEvent)
  | webDisconnect (addr : Nat)
  | daemonConnect (addr : Nat) (uuid : Uuid) (key : Nat) (challenge : String)
  | daemonDisconnect (addr : Nat)

def applyOp (s : State) : Op → State
  | .webConnect a => addWeb s a
  | .webListen a evs => (sendListen s a evs).1
  | .webDisconnect a => (removeWeb s a).1
  | .daemonConnect a u k c =>
    let s1 := addDaemon s a
    let s2 := (sendDaemonHandshakeRequest s1 a u k c).1
    (authenticateDaemon s2 a c).1
  | .daemonDisconnect a => (removeDaemon s a).1

def execOps (ops : List Op) : State :=
  ops.foldl applyOp emptyState

/-! ## Concrete states used by witnesses and counterexamples -/

/-- Two daemon connections holding handshakes for the same daemon id `d7`
(challenges `OLD` and `C`), the first registered in the id map; no listen
entries. -/
def twoPeerState : State :=
  { webChannelMap := [],
    daemonChannelMap := [(1, ⟨false, some ⟨"d7", 11, "OLD"⟩⟩),
                         (2, ⟨false, some ⟨"d7", 22, "C"⟩⟩)],
    daemonListenMap := [],
    webListenMap := [],
    daemonIdMap := [("d7", 1)] }

/-- One authenticated web subscriber (address 5) listening for NodeStatus of
daemon `d7`; daemon `d7` awaits handshake validation on address 1. -/
def subscribedState : State :=
  { webChannelMap := [(5, ⟨false, some ⟨42, 55, "WC"⟩⟩)],
    daemonChannelMap := [(1, ⟨false, some ⟨"d7", 11, "C"⟩⟩)],
    daemonListenMap := [("d7", [(.nodeStatus, [5])])],
    webListenMap := [(5, [(.nodeStatus, ["d7"])])],
    daemonIdMap := [] }

/-- The subscribe-then-disconnect operation sequence from the empty state. -/
def listenThenDisconnect : State :=
  execOps [.webConnect 5, .webListen 5 [⟨.nodeStatus, ["d9"]⟩], .webDisconnect 5]

/-- A representative fully populated sync snapshot. -/
def sampleSync : SDSyncPacket :=
  ⟨[⟨7, 3⟩],
   [⟨4, ⟨"nginx", "latest", ⟨["CMD"], 5, 6, 7⟩, [⟨"/var/data", "sub/dir"⟩],
        [⟨"K", true, .number, none, some "x", some 1, some 9, false⟩]⟩,
     [⟨"K", "5"⟩], [⟨7, 5⟩], [⟨80, .tcp, 8080⟩]⟩]⟩

/-- The one-direction subscription invariant: every daemon-side subscription
entry has its mirror in the web-side map. -/
def invP (dl : DaemonListenMap) (wl : WebListenMap) : Prop :=
  ∀ d e w, w ∈ nested dl d e → d ∈ nested wl w e

/-- Shape invariant of the mount-normalization stack: a leading root, then
possibly parent-dir components, then only normal components. -/
def goodStack (st : List UComp) : Prop :=
  ∃ k ns, st = UComp.root :: (List.replicate k UComp.parent ++ ns) ∧
    ∀ c ∈ ns, ∃ s, c = UComp.normal s

/-! # Theorems -/

/-! ## Association-list and set lemmas -/

theorem lookupA_insertA {α β : Type} [DecidableEq α] (m : List (α × β)) (k : α) (v : β)
    (k' : α) : lookupA (insertA m k v) k' = if k = k' then some v else lookupA m k' := by
  induction m with
  | nil => simp [insertA, lookupA]
  | cons kv rest ih =>
    obtain ⟨k0, v0⟩ := kv
    by_cases h : k0 = k
    · subst h
      simp only [insertA, eq_self_iff_true, if_true, lookupA]
      by_cases h2 : k0 = k' <;> simp [h2]
    · by_cases h2 : k0 = k'
      · subst h2
        have hne : ¬ k = k0 := fun hh => h hh.symm
        simp [insertA, lookupA, h, hne]
      · simp [insertA, lookupA, h, h2, ih]

theorem lookupA_eraseA {α β : Type} [DecidableEq α] (m : List (α × β)) (k : α)
    (k' : α) : lookupA (eraseA m k) k' = if k = k' then none else lookupA m k' := by
  induction m with
  | nil => simp [eraseA, lookupA]
  | cons kv rest ih =>
    obtain ⟨k0, v0⟩ := kv
    by_cases h : k0 = k
    · subst h
      by_cases h2 : k0 = k'
      · subst h2
        simp [eraseA, lookupA, ih]
      · simp [eraseA, lookupA, h2, ih]
    · by_cases h2 : k0 = k'
      · subst h2
        have hne : ¬ k = k0 := fun hh => h hh.symm
        simp [eraseA, lookupA, h, hne]
      · simp [eraseA, lookupA, h, h2, ih]

theorem mem_insertS {α : Type} [DecidableEq α] (l : List α) (a x : α) :
    x ∈ insertS l a ↔ x ∈ l ∨ x = a := by
  unfold insertS
  by_cases h : a ∈ l
  · simp only [if_pos h]
    constructor
    · exact fun hx => Or.inl hx
    · rintro (hx | rfl)
      · exact hx
      · exact h
  · simp [if_neg h]

theorem mem_foldl_insertS {α : Type} [DecidableEq α] (l : List α) (init : List α) (x : α) :
    x ∈ l.foldl insertS init ↔ x ∈ init ∨ x ∈ l := by
  induction l generalizing init with
  | nil => simp
  | cons a as ih =>
    simp only [List.foldl_cons, ih, mem_insertS, List.mem_cons]
    tauto

theorem mem_setFrom (ds : List Uuid) (x : Uuid) : x ∈ setFrom ds ↔ x ∈ ds := by
  unfold setFrom
  rw [mem_foldl_insertS]
  simp

theorem mem_removeS {α : Type} [DecidableEq α] (l : List α) (a x : α) :
    x ∈ removeS l a ↔ x ∈ l ∧ x ≠ a := by
  unfold removeS
  simp

/-! ## Lemmas about the nested listen maps -/

theorem nested_eq_of_lookup {α β : Type} [DecidableEq α]
    (m : List (α × List (EventType × List β))) (k : α) (e : EventType)
    (lm : List (EventType × List β)) (set : List β)
    (h1 : lookupA m k = some lm) (h2 : lookupA lm e = some set) :
    nested m k e = set := by
  simp [nested, h1, h2]

theorem nested_insertA {α β : Type} [DecidableEq α]
    (m : List (α × List (EventType × List β))) (k : α)
    (lm : List (EventType × List β)) (d : α) (e : EventType) :
    nested (insertA m k lm) d e =
      if k = d then ((lookupA lm e).getD []) else nested m d e := by
  unfold nested
  rw [lookupA_insertA]
  split <;> rfl

theorem mem_nested_dlInsert (m : DaemonListenMap) (d0 : Uuid) (e0 : EventType)
    (a : Nat) (d : Uuid) (e : EventType) (w : Nat) :
    w ∈ nested (dlInsert m d0 e0 a) d e ↔
      w ∈ nested m d e ∨ (w = a ∧ d = d0 ∧ e = e0) := by
  unfold dlInsert
  split
  next lm h1 =>
    split
    next set h2 =>
      rw [nested_insertA, lookupA_insertA]
      by_cases hd : d0 = d
      · subst hd
        simp only [eq_self_iff_true, if_true]
        by_cases he : e0 = e
        · subst he
          simp only [eq_self_iff_true, if_true, and_true, Option.getD_some, mem_insertS,
            nested_eq_of_lookup m d0 e0 lm set h1 h2]
        · simp only [if_neg he]
          have hn : nested m d0 e = (lookupA lm e).getD [] := by simp [nested, h1]
          rw [← hn]
          have hne : ¬ e = e0 := fun hh => he hh.symm
          tauto
      · simp only [if_neg hd]
        have hnd : ¬ d = d0 := fun hh => hd hh.symm
        tauto
    next h2 =>
      rw [nested_insertA, lookupA_insertA]
      by_cases hd : d0 = d
      · subst hd
        simp only [eq_self_iff_true, if_true]
        by_cases he : e0 = e
        · subst he
          have hn : nested m d0 e0 = [] := by simp [nested, h1, h2]
          simp only [eq_self_iff_true, if_true, and_true, Option.getD_some, hn, List.mem_singleton,
            List.not_mem_nil]
          tauto
        · simp only [if_neg he]
          have hn : nested m d0 e = (lookupA lm e).getD [] := by simp [nested, h1]
          rw [← hn]
          have hne : ¬ e = e0 := fun hh => he hh.symm
          tauto
      · simp only [if_neg hd]
        have hnd : ¬ d = d0 := fun hh => hd hh.symm
        tauto
  next h1 =>
    rw [nested_insertA]
    by_cases hd : d0 = d
    · subst hd
      simp only [eq_self_iff_true, if_true]
      have hn0 : ∀ e', nested m d0 e' = [] := fun e' => by simp [nested, h1]
      by_cases he : e0 = e
      · subst he
        simp only [lookupA, eq_self_iff_true, if_true, and_true, Option.getD_some, List.mem_singleton, hn0,
          List.not_mem_nil]
        tauto
      · simp only [lookupA, if_neg he, Option.getD_none, List.not_mem_nil, hn0]
        have hne : ¬ e = e0 := fun hh => he hh.symm
        tauto
    · simp only [if_neg hd]
      have hnd : ¬ d = d0 := fun hh => hd hh.symm
      tauto

theorem mem_nested_wlInsert (m : WebListenMap) (a : Nat) (e0 : EventType)
    (ds : List Uuid) (w : Nat) (e : EventType) (x : Uuid) :
    x ∈ nested (wlInsert m a e0 ds) w e ↔
      x ∈ nested m w e ∨ (w = a ∧ e = e0 ∧ x ∈ ds) := by
  unfold wlInsert
  split
  next lm h1 =>
    split
    next set h2 =>
      rw [nested_insertA, lookupA_insertA]
      by_cases hd : a = w
      · subst hd
        simp only [eq_self_iff_true, if_true]
        by_cases he : e0 = e
        · subst he
          simp only [eq_self_iff_true, if_true, and_true, Option.getD_some, mem_foldl_insertS,
            nested_eq_of_lookup m a e0 lm set h1 h2]
          tauto
        · simp only [if_neg he]
          have hn : nested m a e = (lookupA lm e).getD [] := by simp [nested, h1]
          rw [← hn]
          have hne : ¬ e = e0 := fun hh => he hh.symm
          tauto
      · simp only [if_neg hd]
        have hnd : ¬ w = a := fun hh => hd hh.symm
        tauto
    next h2 =>
      rw [nested_insertA, lookupA_insertA]
      by_cases hd : a = w
      · subst hd
        simp only [eq_self_iff_true, if_true]
        by_cases he : e0 = e
        · subst he
          have hn : nested m a e0 = [] := by simp [nested, h1, h2]
          simp only [eq_self_iff_true, if_true, and_true, Option.getD_some, hn, mem_setFrom, List.not_mem_nil]
          tauto
        · simp only [if_neg he]
          have hn : nested m a e = (lookupA lm e).getD [] := by simp [nested, h1]
          rw [← hn]
          have hne : ¬ e = e0 := fun hh => he hh.symm
          tauto
      · simp only [if_neg hd]
        have hnd : ¬ w = a := fun hh => hd hh.symm
        tauto
  next h1 =>
    rw [nested_insertA]
    by_cases hd : a = w
    · subst hd
      simp only [eq_self_iff_true, if_true]
      have hn0 : ∀ e', nested m a e' = [] := fun e' => by simp [nested, h1]
      by_cases he : e0 = e
      · subst he
        simp only [lookupA, eq_self_iff_true, if_true, and_true, Option.getD_some, mem_setFrom, hn0,
          List.not_mem_nil]
        tauto
      · simp only [lookupA, if_neg he, Option.getD_none, List.not_mem_nil, hn0]
        have hne : ¬ e = e0 := fun hh => he hh.symm
        tauto
    · simp only [if_neg hd]
      have hnd : ¬ w = a := fun hh => hd hh.symm
      tauto

/-! ## The connection-level operations do not touch the listen maps -/

theorem sendDaemonHandshakeRequest_listen (s : State) (a : Nat) (u : Uuid) (k : Nat)
    (c : String) :
    (sendDaemonHandshakeRequest s a u k c).1.daemonListenMap = s.daemonListenMap ∧
    (sendDaemonHandshakeRequest s a u k c).1.webListenMap = s.webListenMap := by
  unfold sendDaemonHandshakeRequest
  split
  · exact ⟨rfl, rfl⟩
  · dsimp only
    split
    · exact ⟨rfl, rfl⟩
    · exact ⟨rfl, rfl⟩

theorem authenticateDaemon_listen (s : State) (a : Nat) (c : String) :
    (authenticateDaemon s a c).1.daemonListenMap = s.daemonListenMap ∧
    (authenticateDaemon s a c).1.webListenMap = s.webListenMap := by
  unfold authenticateDaemon
  split
  · exact ⟨rfl, rfl⟩
  · split
    · exact ⟨rfl, rfl⟩
    · split
      · exact ⟨rfl, rfl⟩
      · split
        · exact ⟨rfl, rfl⟩
        · exact ⟨rfl, rfl⟩

theorem removeDaemon_listen (s : State) (a : Nat) :
    (removeDaemon s a).1.daemonListenMap = s.daemonListenMap ∧
    (removeDaemon s a).1.webListenMap = s.webListenMap := by
  unfold removeDaemon
  split
  · exact ⟨rfl, rfl⟩
  · split
    · exact ⟨rfl, rfl⟩
    · exact ⟨rfl, rfl⟩

/-! ## remove_web only shrinks the daemon-side map and keeps the web side -/

theorem mem_removeFromDl (dl : DaemonListenMap) (d0 : Uuid) (e0 : EventType) (a : Nat)
    (dl2 : DaemonListenMap) (h : removeFromDl dl d0 e0 a = .ok dl2)
    (d : Uuid) (e : EventType) (w : Nat) (hm : w ∈ nested dl2 d e) :
    w ∈ nested dl d e := by
  unfold removeFromDl at h
  split at h
  next h1 => cases h
  next lm h1 =>
    split at h
    next h2 => cases h
    next set h2 =>
      dsimp only at h
      split at h
      · injection h with h
        subst h
        rw [nested_insertA] at hm
        by_cases hd : d0 = d
        · subst hd
          rw [lookupA_eraseA] at hm
          by_cases he : e0 = e
          · subst he
            simp at hm
          · rw [if_neg he] at hm
            simpa [nested, h1] using hm
        · rwa [if_neg hd] at hm
      · injection h with h
        subst h
        rw [nested_insertA] at hm
        by_cases hd : d0 = d
        · subst hd
          rw [lookupA_insertA] at hm
          by_cases he : e0 = e
          · subst he
            simp only [eq_self_iff_true, if_true, Option.getD_some, mem_removeS] at hm
            rw [nested_eq_of_lookup dl d0 e0 lm set h1 h2]
            exact hm.1
          · rw [if_neg he] at hm
            simpa [nested, h1] using hm
        · rwa [if_neg hd] at hm

theorem rwDaemons_subset (addr : Nat) (e0 : EventType) :
    ∀ (ds : List Uuid) (dl : DaemonListenMap) (upd : List Uuid)
      (d : Uuid) (e : EventType) (w : Nat),
      w ∈ nested (rwDaemons addr e0 ds dl upd).1 d e → w ∈ nested dl d e := by
  intro ds
  induction ds with
  | nil => exact fun dl upd d e w h => h
  | cons d0 ds ih =>
    intro dl upd d e w h
    unfold rwDaemons at h
    dsimp only at h
    split at h
    next msg hrm => exact h
    next dl2 hrm => exact mem_removeFromDl dl d0 e0 addr dl2 hrm d e w (ih dl2 _ d e w h)

theorem rwEvents_subset (addr : Nat) :
    ∀ (evs : List (EventType × List Uuid)) (dl : DaemonListenMap) (upd : List Uuid)
      (d : Uuid) (e : EventType) (w : Nat),
      w ∈ nested (rwEvents addr evs dl upd).1 d e → w ∈ nested dl d e := by
  intro evs
  induction evs with
  | nil => exact fun dl upd d e w h => h
  | cons ev evs ih =>
    intro dl upd d e w h
    obtain ⟨e1, ds1⟩ := ev
    unfold rwEvents at h
    split at h
    next dl2 upd2 msg hrw =>
      have : dl2 = (rwDaemons addr e1 ds1 dl upd).1 := by rw [hrw]
      exact rwDaemons_subset addr e1 ds1 dl upd d e w (this ▸ h)
    next dl2 upd2 hrw =>
      have hdl2 : dl2 = (rwDaemons addr e1 ds1 dl upd).1 := by rw [hrw]
      exact rwDaemons_subset addr e1 ds1 dl upd d e w (hdl2 ▸ ih dl2 upd2 d e w h)

theorem removeWeb_webListen (s : State) (addr : Nat) :
    (removeWeb s addr).1.webListenMap = s.webListenMap := by
  unfold removeWeb
  split
  · rfl
  · split
    · rfl
    · rfl

theorem removeWeb_dl_subset (s : State) (addr : Nat) (d : Uuid) (e : EventType) (w : Nat)
    (h : w ∈ nested (removeWeb s addr).1.daemonListenMap d e) :
    w ∈ nested s.daemonListenMap d e := by
  unfold removeWeb at h
  split at h
  · exact h
  next lm hlm =>
    split at h
    next dl2 upd2 msg hrw =>
      have : dl2 = (rwEvents addr lm s.daemonListenMap []).1 := by rw [hrw]
      exact rwEvents_subset addr lm s.daemonListenMap [] d e w (this ▸ h)
    next dl2 upd2 hrw =>
      have : dl2 = (rwEvents addr lm s.daemonListenMap []).1 := by rw [hrw]
      exact rwEvents_subset addr lm s.daemonListenMap [] d e w (this ▸ h)

/-! ## send_listen inserts mirrored entries -/

theorem listenDaemonFold_wl (addr : Nat) (e : EventType) (idMap : List (Uuid × Nat)) :
    ∀ (ds : List Uuid) (acc : ListenAcc),
      (ds.foldl (listenDaemonStep addr e idMap) acc).wl = acc.wl := by
  intro ds
  induction ds with
  | nil => exact fun acc => rfl
  | cons d ds ih =>
    intro acc
    simp only [List.foldl_cons]
    rw [ih]
    rfl

theorem mem_listenDaemonFold_dl (addr : Nat) (e : EventType) (idMap : List (Uuid × Nat)) :
    ∀ (ds : List Uuid) (acc : ListenAcc) (d' : Uuid) (e' : EventType) (w : Nat),
      w ∈ nested (ds.foldl (listenDaemonStep addr e idMap) acc).dl d' e' ↔
        w ∈ nested acc.dl d' e' ∨ (w = addr ∧ e' = e ∧ d' ∈ ds) := by
  intro ds
  induction ds with
  | nil => intro acc d' e' w; simp
  | cons d ds ih =>
    intro acc d' e' w
    simp only [List.foldl_cons]
    rw [ih]
    have hstep : (listenDaemonStep addr e idMap acc d).dl = dlInsert acc.dl d e addr := rfl
    rw [hstep, mem_nested_dlInsert]
    simp only [List.mem_cons]
    tauto

theorem invP_listenEventStep (addr : Nat) (idMap : List (Uuid × Nat)) (acc : ListenAcc)
    (ev : ListenEvent) (h : invP acc.dl acc.wl) :
    invP (listenEventStep addr idMap acc ev).dl (listenEventStep addr idMap acc ev).wl := by
  intro d e w hm
  unfold listenEventStep at hm ⊢
  dsimp only at hm ⊢
  rw [mem_nested_wlInsert]
  rw [listenDaemonFold_wl addr ev.event idMap ev.daemons acc]
  rcases (mem_listenDaemonFold_dl addr ev.event idMap ev.daemons acc d e w).mp hm with
    hold | ⟨rfl, rfl, hd⟩
  · exact Or.inl (h d e w hold)
  · exact Or.inr ⟨rfl, rfl, hd⟩

theorem invP_listenEventsFold (addr : Nat) (idMap : List (Uuid × Nat)) :
    ∀ (events : List ListenEvent) (acc : ListenAcc), invP acc.dl acc.wl →
      invP (events.foldl (listenEventStep addr idMap) acc).dl
        (events.foldl (listenEventStep addr idMap) acc).wl := by
  intro events
  induction events with
  | nil => exact fun acc h => h
  | cons ev evs ih =>
    intro acc h
    simp only [List.foldl_cons]
    exact ih _ (invP_listenEventStep addr idMap acc ev h)

theorem sendListen_fst (s : State) (addr : Nat) (events : List ListenEvent) :
    (sendListen s addr events).1 =
      { s with
        daemonListenMap := (events.foldl (listenEventStep addr s.daemonIdMap)
          ⟨s.daemonListenMap, s.webListenMap, [], []⟩).dl,
        webListenMap := (events.foldl (listenEventStep addr s.daemonIdMap)
          ⟨s.daemonListenMap, s.webListenMap, [], []⟩).wl } := by
  unfold sendListen
  dsimp only
  split <;> rfl

/-! ## The invariant is preserved by every operation -/

theorem invP_applyOp (s : State) (op : Op)
    (h : invP s.daemonListenMap s.webListenMap) :
    invP (applyOp s op).daemonListenMap (applyOp s op).webListenMap := by
  cases op with
  | webConnect a => exact h
  | webListen a evs =>
    show invP (sendListen s a evs).1.daemonListenMap (sendListen s a evs).1.webListenMap
    rw [sendListen_fst]
    exact invP_listenEventsFold a s.daemonIdMap evs ⟨s.daemonListenMap, s.webListenMap, [], []⟩ h
  | webDisconnect a =>
    intro d e w hm
    have hm2 : w ∈ nested (removeWeb s a).1.daemonListenMap d e := hm
    have hmem : d ∈ nested s.webListenMap w e := h d e w (removeWeb_dl_subset s a d e w hm2)
    have hgoal : d ∈ nested (removeWeb s a).1.webListenMap w e := by
      rw [removeWeb_webListen s a]
      exact hmem
    exact hgoal
  | daemonConnect a u k c =>
    intro d e w hm
    obtain ⟨hd1, hw1⟩ := sendDaemonHandshakeRequest_listen (addDaemon s a) a u k c
    obtain ⟨hd2, hw2⟩ :=
      authenticateDaemon_listen ((sendDaemonHandshakeRequest (addDaemon s a) a u k c).1) a c
    have hm2 : w ∈ nested
        (authenticateDaemon ((sendDaemonHandshakeRequest (addDaemon s a) a u k c).1) a c).1.daemonListenMap
        d e := hm
    rw [hd2, hd1] at hm2
    have hgoal : d ∈ nested
        (authenticateDaemon ((sendDaemonHandshakeRequest (addDaemon s a) a u k c).1) a c).1.webListenMap
        w e := by
      rw [hw2, hw1]
      exact h d e w hm2
    exact hgoal
  | daemonDisconnect a =>
    intro d e w hm
    obtain ⟨hd1, hw1⟩ := removeDaemon_listen s a
    have hm2 : w ∈ nested (removeDaemon s a).1.daemonListenMap d e := hm
    rw [hd1] at hm2
    have hgoal : d ∈ nested (removeDaemon s a).1.webListenMap w e := by
      rw [hw1]
      exact h d e w hm2
    exact hgoal

theorem invP_execOps (ops : List Op) :
    invP (execOps ops).daemonListenMap (execOps ops).webListenMap := by
  have main : ∀ (l : List Op) (s : State), invP s.daemonListenMap s.webListenMap →
      invP (l.foldl applyOp s).daemonListenMap (l.foldl applyOp s).webListenMap := by
    intro l
    induction l with
    | nil => exact fun s h => h
    | cons op l ih =>
      intro s h
      simp only [List.foldl_cons]
      exact ih _ (invP_applyOp s op h)
  exact main ops emptyState (fun d e w hm => by simp [nested, lookupA, emptyState] at hm)

/-! ## Claim C1 -/

/-- Claim C1 counterexample: after a web peer subscribes and then
disconnects, the daemon-side set no longer contains the peer but the
web-side mirror still names the daemon, so the biconditional invariant
fails at quiescence. -/
theorem c1_biconditional_fails :
    "d9" ∈ nested listenThenDisconnect.webListenMap 5 EventType.nodeStatus ∧
    5 ∉ nested listenThenDisconnect.daemonListenMap "d9" EventType.nodeStatus := by
  decide

/-- Claim C1 (amended): after any sequence of web-connect, web-listen,
web-disconnect, daemon-connect and daemon-disconnect operations from the
empty state, the subscription index is consistent in one direction: every
membership `w ∈ DaemonListen[d][e]` is mirrored by `d ∈ WebListen[w][e]`.
The converse direction fails after a web disconnect. -/
theorem c1_subscription_index_one_direction (ops : List Op) (d : Uuid)
    (e : EventType) (w : Nat)
    (h : w ∈ nested (execOps ops).daemonListenMap d e) :
    d ∈ nested (execOps ops).webListenMap w e :=
  invP_execOps ops d e w h

theorem c1_subscription_index_one_direction_witness :
    5 ∈ nested (execOps [.webListen 5 [⟨.nodeStatus, ["d9"]⟩]]).daemonListenMap
        "d9" EventType.nodeStatus ∧
    "d9" ∈ nested (execOps [.webListen 5 [⟨.nodeStatus, ["d9"]⟩]]).webListenMap
        5 EventType.nodeStatus :=
  ⟨by decide,
   c1_subscription_index_one_direction [.webListen 5 [⟨.nodeStatus, ["d9"]⟩]]
     "d9" EventType.nodeStatus 5 (by decide)⟩

/-! ## Claim C2 -/

/-- Claim C2: evaluating remove_web at a subscribed web peer shows the bug:
the WebChannels entry is removed and the peer is stripped from DaemonListen
(with the emptied event key pruned), but the WebListen entry is left in the
map, contradicting the documented cleanup. -/
theorem c2_remove_web_keeps_webListen_entry :
    (removeWeb subscribedState 5).1.webChannelMap = [] ∧
    nested (removeWeb subscribedState 5).1.daemonListenMap "d7" EventType.nodeStatus = [] ∧
    lookupA (removeWeb subscribedState 5).1.daemonListenMap "d7" = some [] ∧
    lookupA (removeWeb subscribedState 5).1.webListenMap 5 =
      some [(EventType.nodeStatus, ["d7"])] ∧
    (removeWeb subscribedState 5).2.2 = none := by
  decide

/-! ## Claim C3 -/

/-- Claim C3 counterexample: a second peer (address 2) completes the
challenge handshake for daemon `d7` while `DaemonIdIndex` points at the
live peer at address 1; the id map is overwritten to address 2, but the
older peer socket is left exactly as it was, with its channel open. -/
theorem c3_supersession_old_channel_not_closed :
    (authenticateDaemon twoPeerState 2 "C").2.2 = none ∧
    lookupA twoPeerState.daemonIdMap "d7" = some 1 ∧
    lookupA (authenticateDaemon twoPeerState 2 "C").1.daemonIdMap "d7" = some 2 ∧
    lookupA (authenticateDaemon twoPeerState 2 "C").1.daemonChannelMap 1 =
      some ⟨false, some ⟨"d7", 11, "OLD"⟩⟩ := by
  decide

/-- Claim C3 (amended): when a daemon completes the challenge handshake,
`DaemonIdIndex[d]` is overwritten to the new peer address, so subsequent
fanout uses only the new connection, but the channel map (and hence any
older peer registered for the same daemon id) is left completely
unchanged: no send channel is closed and no disconnect cleanup runs. -/
theorem c3_supersession_overwrites_id_only (s : State) (addr : Nat)
    (sock : DaemonSocket) (hs : DaemonHandshake)
    (h1 : lookupA s.daemonChannelMap addr = some sock)
    (h2 : sock.handshake = some hs) (h3 : sock.closed = false) :
    (authenticateDaemon s addr hs.challenge).2.2 = none ∧
    lookupA (authenticateDaemon s addr hs.challenge).1.daemonIdMap hs.daemon_uuid =
      some addr ∧
    (authenticateDaemon s addr hs.challenge).1.daemonChannelMap =
      s.daemonChannelMap := by
  have hred : authenticateDaemon s addr hs.challenge =
      ({ s with daemonIdMap := insertA s.daemonIdMap hs.daemon_uuid addr },
       (addr, ⟨hs.encrypter, ServerMsg.sdAuthResponse true⟩) ::
         (match lookupA s.daemonListenMap hs.daemon_uuid with
          | some lm => [(addr, ⟨hs.encrypter, ServerMsg.sdListen (keysOf lm)⟩)]
          | none => []),
       none) := by
    simp [authenticateDaemon, h1, h2, h3]
  rw [hred]
  refine ⟨rfl, ?_, rfl⟩
  rw [lookupA_insertA]
  simp

theorem c3_supersession_overwrites_id_only_witness :
    (authenticateDaemon twoPeerState 2 "C").2.2 = none ∧
    lookupA (authenticateDaemon twoPeerState 2 "C").1.daemonIdMap "d7" = some 2 ∧
    (authenticateDaemon twoPeerState 2 "C").1.daemonChannelMap =
      twoPeerState.daemonChannelMap :=
  c3_supersession_overwrites_id_only twoPeerState 2 ⟨false, some ⟨"d7", 22, "C"⟩⟩
    ⟨"d7", 22, "C"⟩ (by decide) rfl rfl

/-! ## Claim C4 -/

theorem fanClients_ok (s : State) (uuid : Uuid) (ev : EventData) :
    ∀ (clients : List Nat),
      (∀ c ∈ clients, ∃ whs, lookupA s.webChannelMap c = some ⟨false, some whs⟩) →
      (fanClients s uuid ev clients).2 = none ∧
      (fanClients s uuid ev clients).1.map Prod.fst = clients ∧
      ∀ p ∈ (fanClients s uuid ev clients).1,
        p.2.msg = ServerMsg.swEvent uuid ev ∧
        ∃ whs, lookupA s.webChannelMap p.1 = some ⟨false, some whs⟩ ∧
          p.2.key = whs.encrypter := by
  intro clients
  induction clients with
  | nil =>
    intro _
    exact ⟨rfl, rfl, fun p hp => absurd hp (List.not_mem_nil p)⟩
  | cons c cs ih =>
    intro h
    obtain ⟨whs, hws⟩ := h c (List.mem_cons_self c cs)
    obtain ⟨he, hfst, hall⟩ := ih (fun c' hc' => h c' (List.mem_cons_of_mem c hc'))
    have hred : fanClients s uuid ev (c :: cs) =
        ((c, ⟨whs.encrypter, ServerMsg.swEvent uuid ev⟩) :: (fanClients s uuid ev cs).1,
         (fanClients s uuid ev cs).2) := by
      simp [fanClients, hws]
    rw [hred]
    refine ⟨he, ?_, ?_⟩
    · simp only [List.map_cons, hfst]
    · intro p hp
      rcases List.mem_cons.mp hp with rfl | hp2
      · exact ⟨rfl, whs, hws, rfl⟩
      · exact hall p hp2

/-- Claim C4 counterexample: an authenticated daemon whose id has no
DaemonListen entry sends an event; the operation fails with an error
instead of succeeding as a no-op. -/
theorem c4_event_without_listen_entry_errors :
    sendEventFromDaemon twoPeerState 2 (EventData.nodeStatus ⟨true, none⟩) =
      ([], some "Daemon not found in DaemonListenMap") := by
  decide

/-- Claim C4 (amended): on a DSEvent from the peer at address `a`, if `a`
has no channel entry or no handshake the operation fails without sending
anything; if the handshake daemon id has a DaemonListen entry without the
event type, the operation succeeds sending nothing; if the id has no
DaemonListen entry at all, the operation fails with an error; and when the
subscriber set exists (and every subscriber is an open authenticated web
peer), exactly those peers are each enqueued one SWEvent carrying the
daemon id and the unchanged event data, encrypted with that client
encrypter. -/
theorem c4_send_event_from_daemon_cases :
    (∀ (s : State) (addr : Nat) (ev : EventData),
      lookupA s.daemonChannelMap addr = none →
      sendEventFromDaemon s addr ev = ([], some "Daemon not found in DaemonChannelMap")) ∧
    (∀ (s : State) (addr : Nat) (ev : EventData) (sock : DaemonSocket),
      lookupA s.daemonChannelMap addr = some sock → sock.handshake = none →
      sendEventFromDaemon s addr ev = ([], some "Client has not requested authentication")) ∧
    (∀ (s : State) (addr : Nat) (ev : EventData) (sock : DaemonSocket)
       (hs : DaemonHandshake),
      lookupA s.daemonChannelMap addr = some sock → sock.handshake = some hs →
      lookupA s.daemonListenMap hs.daemon_uuid = none →
      sendEventFromDaemon s addr ev = ([], some "Daemon not found in DaemonListenMap")) ∧
    (∀ (s : State) (addr : Nat) (ev : EventData) (sock : DaemonSocket)
       (hs : DaemonHandshake) (dm : List (EventType × List Nat)),
      lookupA s.daemonChannelMap addr = some sock → sock.handshake = some hs →
      lookupA s.daemonListenMap hs.daemon_uuid = some dm →
      lookupA dm ev.eventType = none →
      sendEventFromDaemon s addr ev = ([], none)) ∧
    (∀ (s : State) (addr : Nat) (ev : EventData) (sock : DaemonSocket)
       (hs : DaemonHandshake) (dm : List (EventType × List Nat)) (clients : List Nat),
      lookupA s.daemonChannelMap addr = some sock → sock.handshake = some hs →
      lookupA s.daemonListenMap hs.daemon_uuid = some dm →
      lookupA dm ev.eventType = some clients →
      (∀ c ∈ clients, ∃ whs, lookupA s.webChannelMap c = some ⟨false, some whs⟩) →
      (sendEventFromDaemon s addr ev).2 = none ∧
      (sendEventFromDaemon s addr ev).1.map Prod.fst = clients ∧
      ∀ p ∈ (sendEventFromDaemon s addr ev).1,
        p.2.msg = ServerMsg.swEvent hs.daemon_uuid ev ∧
        ∃ whs, lookupA s.webChannelMap p.1 = some ⟨false, some whs⟩ ∧
          p.2.key = whs.encrypter) := by
  refine ⟨?_, ?_, ?_, ?_, ?_⟩
  · intro s addr ev h1
    simp [sendEventFromDaemon, h1]
  · intro s addr ev sock h1 h2
    simp [sendEventFromDaemon, h1, h2]
  · intro s addr ev sock hs h1 h2 h3
    simp [sendEventFromDaemon, sendEventFromServer, h1, h2, h3]
  · intro s addr ev sock hs dm h1 h2 h3 h4
    simp [sendEventFromDaemon, sendEventFromServer, h1, h2, h3, h4]
  · intro s addr ev sock hs dm clients h1 h2 h3 h4 h5
    have hred : sendEventFromDaemon s addr ev = fanClients s hs.daemon_uuid ev clients := by
      simp [sendEventFromDaemon, sendEventFromServer, h1, h2, h3, h4]
    rw [hred]
    exact fanClients_ok s hs.daemon_uuid ev clients h5

theorem c4_send_event_from_daemon_cases_witness :
    sendEventFromDaemon twoPeerState 2 (EventData.nodeStatus ⟨true, none⟩) =
      ([], some "Daemon not found in DaemonListenMap") ∧
    (sendEventFromDaemon subscribedState 9 (EventData.nodeStatus ⟨true, none⟩) =
      ([], some "Daemon not found in DaemonChannelMap")) :=
  ⟨c4_send_event_from_daemon_cases.2.2.1 twoPeerState 2 (EventData.nodeStatus ⟨true, none⟩)
     ⟨false, some ⟨"d7", 22, "C"⟩⟩ ⟨"d7", 22, "C"⟩ (by decide) rfl (by decide),
   c4_send_event_from_daemon_cases.1 subscribedState 9 (EventData.nodeStatus ⟨true, none⟩)
     (by decide)⟩

/-! ## Claim C5 -/

/-- Claim C5 counterexample: after a successful daemon handshake validation
with a web subscriber already present, the server enqueues exactly the auth
response and the SDListen union; no SDSync packet is pushed, so no initial
sync begins. -/
theorem c5_handshake_pushes_no_sync :
    (authenticateDaemon subscribedState 1 "C").2.2 = none ∧
    (authenticateDaemon subscribedState 1 "C").2.1 =
      [(1, ⟨11, ServerMsg.sdAuthResponse true⟩),
       (1, ⟨11, ServerMsg.sdListen [EventType.nodeStatus]⟩)] ∧
    ∀ p ∈ (authenticateDaemon subscribedState 1 "C").2.1, p.2.msg.isSync = false := by
  refine ⟨by decide, by decide, by decide⟩

/-- Claim C5 (amended): after every successful daemon handshake validation
the server (a) registers the daemon in DaemonIdIndex and (b) sends it an
SDListen with the union of subscribed event types when web clients are
already subscribed (and nothing beyond the auth response otherwise); no
SDSync is pushed, i.e. the initial sync of the spec does not happen. -/
theorem c5_handshake_registers_and_sends_listen (s : State) (addr : Nat)
    (sock : DaemonSocket) (hs : DaemonHandshake)
    (h1 : lookupA s.daemonChannelMap addr = some sock)
    (h2 : sock.handshake = some hs) (h3 : sock.closed = false) :
    (authenticateDaemon s addr hs.challenge).2.2 = none ∧
    lookupA (authenticateDaemon s addr hs.challenge).1.daemonIdMap hs.daemon_uuid =
      some addr ∧
    (authenticateDaemon s addr hs.challenge).2.1 =
      (addr, ⟨hs.encrypter, ServerMsg.sdAuthResponse true⟩) ::
        (match lookupA s.daemonListenMap hs.daemon_uuid with
         | some lm => [(addr, ⟨hs.encrypter, ServerMsg.sdListen (keysOf lm)⟩)]
         | none => []) ∧
    ∀ p ∈ (authenticateDaemon s addr hs.challenge).2.1, p.2.msg.isSync = false := by
  have hred : authenticateDaemon s addr hs.challenge =
      ({ s with daemonIdMap := insertA s.daemonIdMap hs.daemon_uuid addr },
       (addr, ⟨hs.encrypter, ServerMsg.sdAuthResponse true⟩) ::
         (match lookupA s.daemonListenMap hs.daemon_uuid with
          | some lm => [(addr, ⟨hs.encrypter, ServerMsg.sdListen (keysOf lm)⟩)]
          | none => []),
       none) := by
    simp [authenticateDaemon, h1, h2, h3]
  rw [hred]
  refine ⟨rfl, by rw [lookupA_insertA]; simp, rfl, ?_⟩
  cases hlm : lookupA s.daemonListenMap hs.daemon_uuid with
  | none =>
    intro p hp
    rcases List.mem_cons.mp hp with rfl | hp2
    · rfl
    · exact absurd hp2 (List.not_mem_nil p)
  | some lm =>
    intro p hp
    rcases List.mem_cons.mp hp with rfl | hp2
    · rfl
    · rcases List.mem_cons.mp hp2 with rfl | hp3
      · rfl
      · exact absurd hp3 (List.not_mem_nil p)

theorem c5_handshake_registers_and_sends_listen_witness :
    (authenticateDaemon subscribedState 1 "C").2.2 = none ∧
    lookupA (authenticateDaemon subscribedState 1 "C").1.daemonIdMap "d7" = some 1 ∧
    (authenticateDaemon subscribedState 1 "C").2.1 =
      (1, ⟨11, ServerMsg.sdAuthResponse true⟩) ::
        (match lookupA subscribedState.daemonListenMap "d7" with
         | some lm => [(1, ⟨11, ServerMsg.sdListen (keysOf lm)⟩)]
         | none => []) ∧
    ∀ p ∈ (authenticateDaemon subscribedState 1 "C").2.1, p.2.msg.isSync = false :=
  c5_handshake_registers_and_sends_listen subscribedState 1 ⟨false, some ⟨"d7", 11, "C"⟩⟩
    ⟨"d7", 11, "C"⟩ (by decide) rfl rfl

/-! ## Claim C6 -/

/-- Claim C6: removing an authenticated daemon deletes its DaemonChannels
and DaemonIdIndex entries, leaves both listen maps and the web channel map
completely untouched, and emits exactly what the normal fanout path
produces for the synthetic offline NodeStatus event. -/
theorem c6_remove_daemon_frame (s : State) (addr : Nat)
    (sock : DaemonSocket) (hs : DaemonHandshake)
    (h1 : lookupA s.daemonChannelMap addr = some sock)
    (h2 : sock.handshake = some hs) :
    (removeDaemon s addr).1.daemonChannelMap = eraseA s.daemonChannelMap addr ∧
    (removeDaemon s addr).1.daemonIdMap = eraseA s.daemonIdMap hs.daemon_uuid ∧
    (removeDaemon s addr).1.daemonListenMap = s.daemonListenMap ∧
    (removeDaemon s addr).1.webListenMap = s.webListenMap ∧
    (removeDaemon s addr).1.webChannelMap = s.webChannelMap ∧
    (removeDaemon s addr).2 =
      sendEventFromServer (removeDaemon s addr).1 hs.daemon_uuid
        (EventData.nodeStatus ⟨false, none⟩) := by
  have hred : removeDaemon s addr =
      ({ s with daemonChannelMap := eraseA s.daemonChannelMap addr,
                daemonIdMap := eraseA s.daemonIdMap hs.daemon_uuid },
       (sendEventFromServer
         { s with daemonChannelMap := eraseA s.daemonChannelMap addr,
                  daemonIdMap := eraseA s.daemonIdMap hs.daemon_uuid }
         hs.daemon_uuid (EventData.nodeStatus ⟨false, none⟩)).1,
       (sendEventFromServer
         { s with daemonChannelMap := eraseA s.daemonChannelMap addr,
                  daemonIdMap := eraseA s.daemonIdMap hs.daemon_uuid }
         hs.daemon_uuid (EventData.nodeStatus ⟨false, none⟩)).2) := by
    simp [removeDaemon, h1, h2]
  rw [hred]
  exact ⟨rfl, rfl, rfl, rfl, rfl, Prod.mk.eta⟩

theorem c6_remove_daemon_frame_witness :
    (removeDaemon subscribedState 1).1.daemonChannelMap =
      eraseA subscribedState.daemonChannelMap 1 ∧
    (removeDaemon subscribedState 1).1.daemonIdMap =
      eraseA subscribedState.daemonIdMap "d7" ∧
    (removeDaemon subscribedState 1).1.daemonListenMap =
      subscribedState.daemonListenMap ∧
    (removeDaemon subscribedState 1).1.webListenMap = subscribedState.webListenMap ∧
    (removeDaemon subscribedState 1).1.webChannelMap = subscribedState.webChannelMap ∧
    (removeDaemon subscribedState 1).2 =
      sendEventFromServer (removeDaemon subscribedState 1).1 "d7"
        (EventData.nodeStatus ⟨false, none⟩) :=
  c6_remove_daemon_frame subscribedState 1 ⟨false, some ⟨"d7", 11, "C"⟩⟩ ⟨"d7", 11, "C"⟩
    (by decide) rfl

/-! ## Claim C10 -/

/-- Claim C10: for an authenticated daemon whose id has no DaemonListen
entry, remove_daemon removes the DaemonChannels and DaemonIdIndex entries
and then reports failure from the offline broadcast, so the disconnect hook
returns an error even though the cleanup already took effect. -/
theorem c10_remove_daemon_error_after_cleanup (s : State) (addr : Nat)
    (sock : DaemonSocket) (hs : DaemonHandshake)
    (h1 : lookupA s.daemonChannelMap addr = some sock)
    (h2 : sock.handshake = some hs)
    (h3 : lookupA s.daemonListenMap hs.daemon_uuid = none) :
    (removeDaemon s addr).2.2 = some "Daemon not found in DaemonListenMap" ∧
    (removeDaemon s addr).2.1 = [] ∧
    lookupA (removeDaemon s addr).1.daemonChannelMap addr = none ∧
    lookupA (removeDaemon s addr).1.daemonIdMap hs.daemon_uuid = none := by
  have hred : removeDaemon s addr =
      ({ s with daemonChannelMap := eraseA s.daemonChannelMap addr,
                daemonIdMap := eraseA s.daemonIdMap hs.daemon_uuid },
       (sendEventFromServer
         { s with daemonChannelMap := eraseA s.daemonChannelMap addr,
                  daemonIdMap := eraseA s.daemonIdMap hs.daemon_uuid }
         hs.daemon_uuid (EventData.nodeStatus ⟨false, none⟩)).1,
       (sendEventFromServer
         { s with daemonChannelMap := eraseA s.daemonChannelMap addr,
                  daemonIdMap := eraseA s.daemonIdMap hs.daemon_uuid }
         hs.daemon_uuid (EventData.nodeStatus ⟨false, none⟩)).2) := by
    simp [removeDaemon, h1, h2]
  rw [hred]
  refine ⟨?_, ?_, ?_, ?_⟩
  · simp [sendEventFromServer, h3]
  · simp [sendEventFromServer, h3]
  · rw [lookupA_eraseA]
    simp
  · rw [lookupA_eraseA]
    simp

theorem c10_remove_daemon_error_after_cleanup_witness :
    (removeDaemon twoPeerState 1).2.2 = some "Daemon not found in DaemonListenMap" ∧
    (removeDaemon twoPeerState 1).2.1 = [] ∧
    lookupA (removeDaemon twoPeerState 1).1.daemonChannelMap 1 = none ∧
    lookupA (removeDaemon twoPeerState 1).1.daemonIdMap "d7" = none :=
  c10_remove_daemon_error_after_cleanup twoPeerState 1 ⟨false, some ⟨"d7", 11, "OLD"⟩⟩
    ⟨"d7", 11, "OLD"⟩ (by decide) rfl (by decide)

/-! ## Claim C7 -/

/-- Claim C7 counterexample: a frame that fails to decrypt makes the shared
handler path crash (the source unwraps the decode result with `.expect`)
instead of returning an error and closing the peer. -/
theorem c7_decrypt_failure_panics :
    handlePacketDaemon emptyState ⟨1, "aesterisk/daemon", 0, 60, none⟩ 2 0 3 =
      (emptyState, .crash "should decrypt") := rfl

/-- Claim C7 (amended): on the daemon listener a JWT validation failure
makes the handler close the peer channel (via the on_decrypt_error hook)
and return an error, but a decryption failure crashes the handler task
instead of returning; on the web listener both failures return an error and
nothing closes the peer channel. -/
theorem c7_decrypt_and_validation_failures :
    (∀ (s : State) (tok : Jwe) (priv : Nat) (now : Int) (addr : Nat),
      tok.encKey ≠ priv →
      handlePacketDaemon s tok priv now addr = (s, .crash "should decrypt")) ∧
    (∀ (s : State) (tok : Jwe) (priv : Nat) (now : Int) (addr : Nat)
       (sock : DaemonSocket),
      tok.encKey = priv → jwtValid tok "aesterisk/daemon" now = false →
      lookupA s.daemonChannelMap addr = some sock →
      handlePacketDaemon s tok priv now addr =
        ({ s with daemonChannelMap :=
            insertA s.daemonChannelMap addr { sock with closed := true } },
         .err "Invalid token")) ∧
    (∀ (tok : Jwe) (priv : Nat) (now : Int),
      tok.encKey ≠ priv → decryptPacketWeb tok priv now = .err "should decrypt") ∧
    (∀ (tok : Jwe) (priv : Nat) (now : Int),
      tok.encKey = priv → jwtValid tok "aesterisk/web" now = false →
      decryptPacketWeb tok priv now = .err "invalid token") := by
  refine ⟨?_, ?_, ?_, ?_⟩
  · intro s tok priv now addr h
    simp [handlePacketDaemon, h]
  · intro s tok priv now addr sock h hv hc
    simp [handlePacketDaemon, h, hv, hc]
  · intro tok priv now h
    simp [decryptPacketWeb, h]
  · intro tok priv now h hv
    simp [decryptPacketWeb, h, hv]

theorem c7_decrypt_and_validation_failures_witness :
    handlePacketDaemon emptyState ⟨1, "aesterisk/daemon", 0, 60, some (Json.num 0)⟩ 2 0 3 =
      (emptyState, .crash "should decrypt") ∧
    handlePacketDaemon twoPeerState ⟨2, "aesterisk/web", 0, 60, none⟩ 2 0 1 =
      ({ twoPeerState with daemonChannelMap := insertA twoPeerState.daemonChannelMap 1 ⟨true, some ⟨"d7", 11, "OLD"⟩⟩ }, .err "Invalid token") ∧
    decryptPacketWeb ⟨1, "aesterisk/web", 0, 60, none⟩ 2 0 = .err "should decrypt" ∧
    decryptPacketWeb ⟨2, "aesterisk/daemon", 0, 60, none⟩ 2 0 = .err "invalid token" :=
  ⟨c7_decrypt_and_validation_failures.1 emptyState
     ⟨1, "aesterisk/daemon", 0, 60, some (Json.num 0)⟩ 2 0 3 (by decide),
   c7_decrypt_and_validation_failures.2.1 twoPeerState ⟨2, "aesterisk/web", 0, 60, none⟩
     2 0 1 ⟨false, some ⟨"d7", 11, "OLD"⟩⟩ rfl (by decide) (by decide),
   c7_decrypt_and_validation_failures.2.2.1 ⟨1, "aesterisk/web", 0, 60, none⟩ 2 0
     (by decide),
   c7_decrypt_and_validation_failures.2.2.2 ⟨2, "aesterisk/daemon", 0, 60, none⟩ 2 0
     rfl (by decide)⟩

/-! ## Claim C9 -/

theorem goodStack_normStep (st : List UComp) (c : UComp) (hst : goodStack st)
    (hc : c = UComp.parent ∨ ∃ s, c = UComp.normal s) :
    goodStack (normStep st c) := by
  obtain ⟨k, ns, rfl, hns⟩ := hst
  rcases hc with rfl | ⟨s, rfl⟩
  · cases hne : ns.eq_nil_or_concat with
    | inl hnil =>
      subst hnil
      cases k with
      | zero =>
        refine ⟨1, [], ?_, ?_⟩
        · simp [normStep]
        · intro c hc
          exact absurd hc (List.not_mem_nil c)
      | succ k =>
        have hrep : UComp.root :: (List.replicate (k + 1) UComp.parent ++ ([] : List UComp)) =
            (UComp.root :: List.replicate k UComp.parent) ++ [UComp.parent] := by
          simp [List.replicate_succ' k UComp.parent]
        refine ⟨k + 2, [], ?_, ?_⟩
        · rw [hrep]
          unfold normStep
          rw [List.getLast?_concat]
          simp [List.replicate_succ' (k + 1) UComp.parent, List.replicate_succ' k UComp.parent]
        · intro c hc
          exact absurd hc (List.not_mem_nil c)
    | inr hcon =>
      obtain ⟨ns0, x, rfl⟩ := hcon
      obtain ⟨sx, rfl⟩ := hns x (by simp)
      simp only [List.concat_eq_append] at hns ⊢
      have hform : UComp.root :: (List.replicate k UComp.parent ++ (ns0 ++ [UComp.normal sx])) =
          (UComp.root :: (List.replicate k UComp.parent ++ ns0)) ++ [UComp.normal sx] := by
        simp
      refine ⟨k, ns0, ?_, fun c hc => hns c (by simp [hc])⟩
      rw [hform]
      unfold normStep
      rw [List.getLast?_concat, List.dropLast_concat]
  · refine ⟨k, ns ++ [UComp.normal s], ?_, ?_⟩
    · simp [normStep]
    · intro c hc
      rcases List.mem_append.mp hc with hc1 | hc2
      · exact hns c hc1
      · rw [List.mem_singleton.mp hc2]
        exact ⟨s, rfl⟩

theorem goodStack_foldl :
    ∀ (cs : List UComp) (st : List UComp), goodStack st →
      (∀ c ∈ cs, c = UComp.parent ∨ ∃ s, c = UComp.normal s) →
      goodStack (cs.foldl normStep st) := by
  intro cs
  induction cs with
  | nil => exact fun st h _ => h
  | cons c cs ih =>
    intro st h hall
    simp only [List.foldl_cons]
    exact ih _ (goodStack_normStep st c h (hall c (List.mem_cons_self c cs)))
      (fun c' hc' => hall c' (List.mem_cons_of_mem c hc'))

theorem isPrefixList_iff {α : Type} [DecidableEq α] :
    ∀ (l1 l2 : List α), isPrefixList l1 l2 = true ↔ ∃ t, l2 = l1 ++ t := by
  intro l1
  induction l1 with
  | nil =>
    intro l2
    simp [isPrefixList]
  | cons a as ih =>
    intro l2
    cases l2 with
    | nil =>
      simp only [isPrefixList]
      constructor
      · intro h
        cases h
      · rintro ⟨t, ht⟩
        cases ht
    | cons b bs =>
      unfold isPrefixList
      by_cases hab : a = b
      · subst hab
        rw [if_pos rfl, ih bs]
        constructor
        · rintro ⟨t, rfl⟩
          exact ⟨t, rfl⟩
        · rintro ⟨t, ht⟩
          injection ht with h1 h2
          exact ⟨t, h2⟩
      · rw [if_neg hab]
        constructor
        · intro h
          cases h
        · rintro ⟨t, ht⟩
          injection ht with h1 h2
          exact absurd h1.symm hab

/-- Claim C9: every mount the validation keeps has a normalized bind-source
path that is the per-server data root followed by normal components only:
parent-dir components pop only previously accumulated normal components and
never cross the root, and a path that does not start with the data root is
dropped, so no accepted mount escapes the per-server data root.  The
hypothesis states that the host path components after the optional leading
root are only normal or parent-dir components, which is what
`camino::Utf8Path::components` produces for the joined path. -/
theorem c9_mount_validation_no_escape (serverId : Nat) (hostComps : List UComp)
    (p : List UComp)
    (hnc : ∀ c ∈ stripRoot hostComps, c = UComp.parent ∨ ∃ s, c = UComp.normal s)
    (hv : validateMount serverId hostComps = some p) :
    ∃ rest, p = dataRootComps serverId ++ rest ∧
      ∀ c ∈ rest, ∃ s, c = UComp.normal s := by
  unfold validateMount at hv
  dsimp only at hv
  split at hv
  next hpre =>
    injection hv with hv
    subst hv
    have hbase : goodStack (dataRootComps serverId) :=
      ⟨0, [UComp.normal "tmp", UComp.normal "aesterisk", UComp.normal "data",
           UComp.normal (toString serverId)], rfl, by
        intro c hc
        fin_cases hc <;> exact ⟨_, rfl⟩⟩
    have hroot : (dataRootComps serverId).foldl normStep [] = dataRootComps serverId := rfl
    have hgood : goodStack
        (normalizeComponents (dataRootComps serverId ++ stripRoot hostComps)) := by
      unfold normalizeComponents
      rw [List.foldl_append, hroot]
      exact goodStack_foldl (stripRoot hostComps) (dataRootComps serverId) hbase hnc
    obtain ⟨t, ht⟩ := (isPrefixList_iff (dataRootComps serverId) _).mp hpre
    refine ⟨t, ht, ?_⟩
    obtain ⟨k, ns, hform, hns⟩ := hgood
    rw [ht] at hform
    cases k with
    | zero =>
      rw [List.replicate_zero, List.nil_append] at hform
      have hform2 : UComp.root :: ([UComp.normal "tmp", UComp.normal "aesterisk",
          UComp.normal "data", UComp.normal (toString serverId)] ++ t) =
          UComp.root :: ns := hform
      injection hform2 with h1 h2
      intro c hc
      exact hns c (by rw [← h2]; exact List.mem_append_right _ hc)
    | succ k =>
      exfalso
      have hform2 : UComp.root :: ([UComp.normal "tmp", UComp.normal "aesterisk",
          UComp.normal "data", UComp.normal (toString serverId)] ++ t) =
          UComp.root :: (List.replicate (k + 1) UComp.parent ++ ns) := hform
      injection hform2 with h1 h2
      rw [List.replicate_succ, List.cons_append] at h2
      injection h2 with h3 h4
      cases h3
  next hpre =>
    cases hv

theorem c9_mount_validation_no_escape_witness :
    validateMount 4 [.normal "sub", .parent, .normal "ok"] =
      some [.root, .normal "tmp", .normal "aesterisk", .normal "data", .normal "4",
            .normal "ok"] ∧
    (∃ rest,
      [UComp.root, .normal "tmp", .normal "aesterisk", .normal "data", .normal "4",
       .normal "ok"] = dataRootComps 4 ++ rest ∧
      ∀ c ∈ rest, ∃ s, c = UComp.normal s) :=
  ⟨by decide,
   c9_mount_validation_no_escape 4 [.normal "sub", .parent, .normal "ok"] _
     (by
       intro c hc
       fin_cases hc
       · exact Or.inr ⟨_, rfl⟩
       · exact Or.inl rfl
       · exact Or.inr ⟨_, rfl⟩)
     (by decide)⟩

/-! ## Claim C8: serialization inverses -/

theorem asNat_encNat (k : Nat) : Json.asNat (encNat k) = some k := by
  show (if (Int.ofNat k) < 0 then none else some (Int.ofNat k).toNat) = some k
  have hne : ¬ Int.ofNat k < 0 := by simp
  rw [if_neg hne]
  simp

theorem mapMOpt_map_enc {α : Type} (f : α → Json) (g : Json → Option α)
    (h : ∀ a, g (f a) = some a) : ∀ xs : List α, mapMOpt g (xs.map f) = some xs := by
  intro xs
  induction xs with
  | nil => rfl
  | cons x xs ih => simp [mapMOpt, h, ih]

theorem decodeList_enc {α : Type} (f : α → Json) (g : Json → Option α)
    (h : ∀ a, g (f a) = some a) (xs : List α) :
    decodeList g (.arr (xs.map f)) = some xs := by
  simp [decodeList, mapMOpt_map_enc f g h]

theorem decodeOpt_enc {α : Type} (enc : α → Json) (dec : Json → Option α)
    (hnn : ∀ a, enc a ≠ Json.null) (h : ∀ a, dec (enc a) = some a) (o : Option α) :
    decodeOpt dec (encodeOpt enc o) = some o := by
  cases o with
  | none => rfl
  | some a =>
    show decodeOpt dec (enc a) = some (some a)
    cases henc : enc a with
    | null => exact absurd henc (hnn a)
    | bool b =>
      have hh := h a
      rw [henc] at hh
      simp [decodeOpt, hh]
    | num n =>
      have hh := h a
      rw [henc] at hh
      simp [decodeOpt, hh]
    | str s =>
      have hh := h a
      rw [henc] at hh
      simp [decodeOpt, hh]
    | arr l =>
      have hh := h a
      rw [henc] at hh
      simp [decodeOpt, hh]
    | obj l =>
      have hh := h a
      rw [henc] at hh
      simp [decodeOpt, hh]

theorem decEventType_enc (e : EventType) : decEventType (encEventType e) = some e := by
  cases e <;> rfl

theorem decNodeStats_enc (s : NodeStats) : decNodeStats (encNodeStats s) = some s := by
  simp [decNodeStats, encNodeStats, Json.getField, lookupA, Json.asInt]

theorem decNodeStatusEvent_enc (e : NodeStatusEvent) :
    decNodeStatusEvent (encNodeStatusEvent e) = some e := by
  simp [decNodeStatusEvent, encNodeStatusEvent, Json.getField, lookupA, Json.asBool,
    decodeOpt_enc encNodeStats decNodeStats (fun a h => by cases h) decNodeStats_enc]

theorem decServerStatusType_enc (t : ServerStatusType) :
    decServerStatusType (encServerStatusType t) = some t := by
  cases t <;> rfl

theorem decStats_enc (s : Stats) : decStats (encStats s) = some s := by
  simp [decStats, encStats, Json.getField, lookupA, Json.asInt]

theorem decServerStatusEvent_enc (e : ServerStatusEvent) :
    decServerStatusEvent (encServerStatusEvent e) = some e := by
  simp [decServerStatusEvent, encServerStatusEvent, Json.getField, lookupA,
    asNat_encNat, decServerStatusType_enc,
    decodeOpt_enc encStats decStats (fun a h => by cases h) decStats_enc]

theorem decEventData_enc (e : EventData) : decEventData (encEventData e) = some e := by
  cases e with
  | nodeStatus v => simp [decEventData, encEventData, decNodeStatusEvent_enc]
  | serverStatus v => simp [decEventData, encEventData, decServerStatusEvent_enc]

theorem decUuid_enc (u : Uuid) : decUuid (encUuid u) = some u := rfl

theorem decListenEvent_enc (e : ListenEvent) : decListenEvent (encListenEvent e) = some e := by
  simp [decListenEvent, encListenEvent, Json.getField, lookupA, decEventType_enc,
    decodeList_enc encUuid decUuid decUuid_enc]

theorem decSyncNetwork_enc (n : SyncNetwork) : decSyncNetwork (encSyncNetwork n) = some n := by
  simp [decSyncNetwork, encSyncNetwork, Json.getField, lookupA, asNat_encNat]

theorem decHealthcheck_enc (h : Healthcheck) : decHealthcheck (encHealthcheck h) = some h := by
  simp [decHealthcheck, encHealthcheck, Json.getField, lookupA, asNat_encNat,
    decodeList_enc Json.str Json.asStr (fun a => rfl)]

theorem decMount_enc (m : Mount) : decMount (encMount m) = some m := by
  simp [decMount, encMount, Json.getField, lookupA, Json.asStr]

theorem decEnvType_enc (t : EnvType) : decEnvType (encEnvType t) = some t := by
  cases t <;> rfl

theorem decEnvDef_enc (d : EnvDef) : decEnvDef (encEnvDef d) = some d := by
  simp [decEnvDef, encEnvDef, Json.getField, lookupA, Json.asStr, Json.asBool,
    decEnvType_enc,
    decodeOpt_enc Json.str Json.asStr (fun a h => by cases h) (fun a => rfl),
    decodeOpt_enc Json.num Json.asInt (fun a h => by cases h) (fun a => rfl)]

theorem decEnv_enc (e : Env) : decEnv (encEnv e) = some e := by
  simp [decEnv, encEnv, Json.getField, lookupA, Json.asStr]

theorem decServerNetwork_enc (n : ServerNetwork) :
    decServerNetwork (encServerNetwork n) = some n := by
  simp [decServerNetwork, encServerNetwork, Json.getField, lookupA, asNat_encNat]

theorem decProtocol_enc (p : Protocol) : decProtocol (encProtocol p) = some p := by
  cases p <;> rfl

theorem decPort_enc (p : Port) : decPort (encPort p) = some p := by
  simp [decPort, encPort, Json.getField, lookupA, asNat_encNat, decProtocol_enc]

theorem decSyncTag_enc (t : SyncTag) : decSyncTag (encSyncTag t) = some t := by
  simp [decSyncTag, encSyncTag, Json.getField, lookupA, Json.asStr, decHealthcheck_enc,
    decodeList_enc encMount decMount decMount_enc,
    decodeList_enc encEnvDef decEnvDef decEnvDef_enc]

theorem decSyncServer_enc (s : SyncServer) : decSyncServer (encSyncServer s) = some s := by
  simp [decSyncServer, encSyncServer, Json.getField, lookupA, asNat_encNat,
    decSyncTag_enc, decodeList_enc encEnv decEnv decEnv_enc,
    decodeList_enc encServerNetwork decServerNetwork decServerNetwork_enc,
    decodeList_enc encPort decPort decPort_enc]

theorem decSDSync_enc (p : SDSyncPacket) : decSDSync (encSDSync p) = some p := by
  simp [decSDSync, encSDSync, Json.getField, lookupA,
    decodeList_enc encSyncNetwork decSyncNetwork decSyncNetwork_enc,
    decodeList_enc encSyncServer decSyncServer decSyncServer_enc]

theorem decInitNetwork_enc (n : InitNetwork) : decInitNetwork (encInitNetwork n) = some n := by
  simp [decInitNetwork, encInitNetwork, Json.getField, lookupA, asNat_encNat, Json.asStr]

theorem versionFromCode_versionCode (v : Version) :
    versionFromCode (versionCode v) = some v := by
  cases v <;> rfl

theorem idFromCode_idCode (i : ID) : idFromCode (idCode i) = some i := by
  cases i <;> rfl

theorem fromJson_toJson (p : Packet) : Packet.fromJson p.toJson = some p := by
  obtain ⟨v, i, d⟩ := p
  simp [Packet.toJson, Packet.fromJson, Json.getField, lookupA, asNat_encNat,
    versionFromCode_versionCode, idFromCode_idCode]

/-- Every packet variant except WSHandshakeResponse survives the wire
round-trip: sending it and parsing it back with the parser of the same
variant family is the identity. -/
theorem reparse_roundtrip (a : AnyPacket)
    (h : ∀ q, a ≠ AnyPacket.wsHandshakeResponse q) :
    AnyPacket.reparse a = some a := by
  cases a with
  | wsHandshakeResponse q => exact absurd rfl (h q)
  | swEvent q =>
    obtain ⟨ev, dmn⟩ := q
    simp [AnyPacket.reparse, AnyPacket.wire, SWEventPacket.parse, SWEventPacket.toPacket,
      Json.getField, lookupA, decEventData_enc, decUuid_enc]
  | dsEvent q =>
    obtain ⟨ev⟩ := q
    simp [AnyPacket.reparse, AnyPacket.wire, DSEventPacket.parse, DSEventPacket.toPacket,
      Json.getField, lookupA, decEventData_enc]
  | sdAuthResponse q =>
    obtain ⟨b⟩ := q
    simp [AnyPacket.reparse, AnyPacket.wire, SDAuthResponsePacket.parse,
      SDAuthResponsePacket.toPacket, Json.getField, lookupA, Json.asBool]
  | sdHandshakeRequest q =>
    obtain ⟨c⟩ := q
    simp [AnyPacket.reparse, AnyPacket.wire, SDHandshakeRequestPacket.parse,
      SDHandshakeRequestPacket.toPacket, Json.getField, lookupA, Json.asStr]
  | sdInitData q =>
    obtain ⟨nws⟩ := q
    simp [AnyPacket.reparse, AnyPacket.wire, SDInitDataPacket.parse,
      SDInitDataPacket.toPacket, Json.getField, lookupA,
      decodeList_enc encInitNetwork decInitNetwork decInitNetwork_enc]
  | sdListen q =>
    obtain ⟨evs⟩ := q
    simp [AnyPacket.reparse, AnyPacket.wire, SDListenPacket.parse, SDListenPacket.toPacket,
      Json.getField, lookupA, decodeList_enc encEventType decEventType decEventType_enc]
  | sdSync q =>
    simp [AnyPacket.reparse, AnyPacket.wire, SDSyncPacket.parse, SDSyncPacket.toPacket,
      decSDSync_enc]
  | swHandshakeRequest q =>
    obtain ⟨c⟩ := q
    simp [AnyPacket.reparse, AnyPacket.wire, SWHandshakeRequestPacket.parse,
      SWHandshakeRequestPacket.toPacket, Json.getField, lookupA, Json.asStr]
  | wsAuth q =>
    obtain ⟨uid⟩ := q
    simp [AnyPacket.reparse, AnyPacket.wire, WSAuthPacket.parse,
      WSAuthPacket.toStringPacket, Json.getField, lookupA, asNat_encNat]
  | wsListen q =>
    obtain ⟨evs⟩ := q
    simp [AnyPacket.reparse, AnyPacket.wire, WSListenPacket.parse,
      WSListenPacket.toStringPacket, Json.getField, lookupA,
      decodeList_enc encListenEvent decListenEvent decListenEvent_enc]
  | wsSync q =>
    obtain ⟨dmn⟩ := q
    simp [AnyPacket.reparse, AnyPacket.wire, WSSyncPacket.parse, WSSyncPacket.toPacket,
      Json.getField, lookupA, decUuid_enc]

/-- Encryption followed by decryption with the matching key, the correct
expected issuer and the same base time returns the original packet (and the
decrypt-error callback does not run). -/
theorem decryptPacketEnc_encryptPacket (p : Packet) (key : Nat) (now : Int) :
    decryptPacketEnc (encryptPacket p key now) key "aesterisk/server" now =
      (.ok p, false) := by
  have hv : jwtValid (encryptPacket p key now) "aesterisk/server" now = true := by
    simp only [jwtValid, encryptPacket, Bool.and_eq_true, decide_eq_true_eq]
    refine ⟨⟨⟨by simp, by omega⟩, by omega⟩, by omega⟩
  unfold decryptPacketEnc
  rw [if_neg (by simp [encryptPacket]), if_neg (by simp [hv])]
  simp [encryptPacket, fromJson_toJson]

/-- Decrypting while expecting a different issuer fails validation. -/
theorem decryptPacketEnc_wrong_issuer (p : Packet) (key : Nat) (now now2 : Int)
    (issuer : String) (h : issuer ≠ "aesterisk/server") :
    decryptPacketEnc (encryptPacket p key now) key issuer now2 =
      (.err "Invalid token", true) := by
  have h1 : decide (("aesterisk/server" : String) = issuer) = false :=
    decide_eq_false (fun hh => h hh.symm)
  have hv : jwtValid (encryptPacket p key now) issuer now2 = false := by
    unfold jwtValid
    dsimp only [encryptPacket]
    rw [h1]
    simp
  unfold decryptPacketEnc
  rw [if_neg (by simp [encryptPacket]), if_pos hv]

/-- Decrypting a token issued more than 60 seconds before the validation
base time fails. -/
theorem decryptPacketEnc_stale (p : Packet) (key : Nat) (now now2 : Int)
    (h : now < now2 - 60) :
    decryptPacketEnc (encryptPacket p key now) key "aesterisk/server" now2 =
      (.err "Invalid token", true) := by
  have h1 : decide (now2 - 60 ≤ now) = false := decide_eq_false (by omega)
  have hv : jwtValid (encryptPacket p key now) "aesterisk/server" now2 = false := by
    unfold jwtValid
    dsimp only [encryptPacket]
    rw [h1]
    simp
  unfold decryptPacketEnc
  rw [if_neg (by simp [encryptPacket]), if_pos hv]

/-- Claim C8: the WSHandshakeResponse variant does not round-trip: its
to_string builds the wire packet with ID::WSAuth, so parsing it back as a
WSHandshakeResponse returns nothing, while for example the one-letter
renamed SDSync shape round-trips through to_packet, the crypto envelope
with the matching key and correct expected issuer, and parse; decrypting
the same frame while expecting a different issuer fails, and decrypting it
61 seconds after issue fails. -/
theorem c8_ws_handshake_response_breaks_roundtrip :
    AnyPacket.reparse (.wsHandshakeResponse ⟨"X"⟩) = none ∧
    (WSHandshakeResponsePacket.toStringPacket ⟨"X"⟩).id = ID.WSAuth ∧
    (decryptPacketEnc (encryptPacket (SDSyncPacket.toPacket sampleSync) 5 100) 5
      "aesterisk/server" 100).1 = .ok (SDSyncPacket.toPacket sampleSync) ∧
    SDSyncPacket.parse (SDSyncPacket.toPacket sampleSync) = some sampleSync ∧
    (decryptPacketEnc (encryptPacket (SDSyncPacket.toPacket sampleSync) 5 100) 5
      "aesterisk/web" 100).1 = .err "Invalid token" ∧
    (decryptPacketEnc (encryptPacket (SDSyncPacket.toPacket sampleSync) 5 100) 5
      "aesterisk/server" 161).1 = .err "Invalid token" :=
  ⟨rfl, rfl, rfl, rfl, rfl, rfl⟩

end Aesterisk
